import Mathlib

/-!
Verification development for the DebugPatterns repository.

The repository is a static catalog site: two registries of debugging
"Pattern" records (a simple one in src/lib/patterns.ts and a rich one in
src/data/registry.ts assembled from src/data/patterns/), page components
that look patterns up by id and render list/detail views, and a
copy-to-clipboard code block (src/components/code-block.tsx).

The embedding below translates those parts of the source: records become
structures, the hardcoded arrays become literal lists (full field
contents included), the registry operations used by the pages
(find-by-id, filter-and-slice for related patterns) become functions on
those lists, and the clipboard/render logic of the code block becomes
explicit state passing with an environment-supplied write outcome.
Runtime-optional values (props that can be undefined) are Options, and a
render step that would throw in JS returns an Except.
-/

set_option maxRecDepth 8192

namespace DebugPatterns

namespace Lib

/-- Entry of the codeExamples array of the simple Pattern type
(src/lib/patterns.ts lines 9-13). -/
structure CodeExample where
  title : String
  code : String
  explanation : String
deriving Repr

/-- The simple Pattern record (src/lib/patterns.ts lines 1-14).
longDescription and useCases are optional in the TS type and are set by
none of the registry entries, so their default here is none. -/
structure Pattern where
  id : String
  title : String
  description : String
  category : String
  diagram : String
  longDescription : Option String := none
  useCases : Option (List String) := none
  codeExamples : List CodeExample
deriving Repr

/-- The simple registry array from src/lib/patterns.ts (declaration order). -/
def patterns : List Pattern := [
  { id := "async-promise-hell",
    title := "Promise Chaining",
    description := "Visualize and debug complex asynchronous flows and promise chains for structured reasoning and step-by-step task completion.",
    category := "WORKFLOW",
    diagram := "https://raw.githubusercontent.com/noah-ing/Debug-Pics/refs/heads/main/mermaid-diagram-2025-01-09-222927.svg",
    codeExamples := [
      { title := "Promise Hell Example",
        code := "// Promise Hell - Hard to debug\nfetchUserData(userId)\n  .then(user => \x7b\n    return fetchUserPosts(user.id)\n      .then(posts => \x7b\n        return fetchPostComments(posts[0].id)\n          .then(comments => \x7b\n            console.log(comments);\n          \x7d);\n      \x7d);\n  \x7d)\n  .catch(error => console.error(error));",
        explanation := "This example shows deeply nested promises that are difficult to debug and maintain." },
      { title := "Improved Promise Chain",
        code := "// Better approach using async/await\nasync function getUserData(userId) \x7b\n  try \x7b\n    const user = await fetchUserData(userId);\n    const posts = await fetchUserPosts(user.id);\n    const comments = await fetchPostComments(posts[0].id);\n    return comments;\n  \x7d catch (error) \x7b\n    console.error(\x27Error in data fetching:\x27, error);\n    throw error;\n  \x7d\n\x7d",
        explanation := "Using async/await makes the code more readable and easier to debug with clear error handling." }] },
  { id := "memory-leaks",
    title := "Memory Leaks 101",
    description := "A systematic approach to identifying and fixing memory leaks through heap snapshot analysis, memory usage visualization, and common leak pattern detection.",
    category := "PERFORMANCE",
    diagram := "https://raw.githubusercontent.com/noah-ing/Debug-Pics/refs/heads/main/mermaid-diagram-2025-01-09-224808.svg",
    codeExamples := [
      { title := "Event Listener Memory Leak",
        code := "// Memory leak - event listeners not cleaned up\nclass Component \x7b\n  constructor() \x7b\n    window.addEventListener(\x27resize\x27, this.handleResize);\n  \x7d\n  \n  handleResize = () => \x7b\n    // Handle resize logic\n  \x7d\n\x7d",
        explanation := "This code creates a memory leak by not removing the event listener when the component is destroyed." },
      { title := "Fixed Event Listener Implementation",
        code := "// Proper cleanup implementation\nclass Component \x7b\n  constructor() \x7b\n    this.handleResize = this.handleResize.bind(this);\n    window.addEventListener(\x27resize\x27, this.handleResize);\n  \x7d\n  \n  handleResize() \x7b\n    // Handle resize logic\n  \x7d\n  \n  cleanup() \x7b\n    window.removeEventListener(\x27resize\x27, this.handleResize);\n  \x7d\n\x7d",
        explanation := "Adding a cleanup method ensures proper removal of event listeners, preventing memory leaks." }] },
  { id := "api-integration",
    title := "API Integration",
    description := "A comprehensive debugging flow for API integrations, focusing on request/response cycles, error handling patterns, and timeout/retry strategies.",
    category := "INTEGRATION",
    diagram := "https://raw.githubusercontent.com/noah-ing/Debug-Pics/refs/heads/main/mermaid-diagram-2025-01-09-222949.svg",
    codeExamples := [
      { title := "Basic API Integration",
        code := "// Simple API integration without proper error handling\nasync function fetchData() \x7b\n  const response = await fetch(\x27api/data\x27);\n  const data = await response.json();\n  return data;\n\x7d",
        explanation := "This basic implementation lacks proper error handling and retry logic." },
      { title := "Robust API Integration",
        code := "// Robust API integration with retry logic and error handling\nasync function fetchDataWithRetry(url, retries = 3) \x7b\n  for (let i = 0; i < retries; i++) \x7b\n    try \x7b\n      const response = await fetch(url);\n      if (!response.ok) \x7b\n        throw new Error(\x60HTTP error! status: $\x7bresponse.status\x7d\x60);\n      \x7d\n      return await response.json();\n    \x7d catch (error) \x7b\n      if (i === retries - 1) throw error;\n      await new Promise(resolve => setTimeout(resolve, 1000 * Math.pow(2, i)));\n    \x7d\n  \x7d\n\x7d",
        explanation := "This implementation includes retry logic, exponential backoff, and proper error handling." }] },
  { id := "state-management",
    title := "State Management",
    description := "A visual approach to debugging state management issues, tracking component re-renders, state mutations, and cache invalidation patterns.",
    category := "STATE",
    diagram := "https://raw.githubusercontent.com/noah-ing/Debug-Pics/refs/heads/main/mermaid-diagram-2025-01-09-222959.svg",
    codeExamples := [
      { title := "Problematic State Update",
        code := "// Direct state mutation - can cause bugs\nconst TodoList = () => \x7b\n  const [todos, setTodos] = useState([]);\n  \n  const addTodo = (todo) => \x7b\n    todos.push(todo); // Direct mutation!\n    setTodos(todos);\n  \x7d;\n\x7d",
        explanation := "Directly mutating state can lead to unexpected behavior and re-render issues." },
      { title := "Proper State Update",
        code := "// Immutable state update pattern\nconst TodoList = () => \x7b\n  const [todos, setTodos] = useState([]);\n  \n  const addTodo = (todo) => \x7b\n    setTodos(prevTodos => [...prevTodos, todo]);\n  \x7d;\n  \n  const removeTodo = (id) => \x7b\n    setTodos(prevTodos => prevTodos.filter(todo => todo.id !== id));\n  \x7d;\n\x7d",
        explanation := "Using immutable updates ensures predictable state changes and proper component re-rendering." }] },
  { id := "performance-bottleneck",
    title := "Performance Bottleneck",
    description := "A systematic method for identifying and resolving performance bottlenecks through waterfall diagrams, load time analysis, and resource optimization.",
    category := "PERFORMANCE",
    diagram := "https://raw.githubusercontent.com/noah-ing/Debug-Pics/refs/heads/main/mermaid-diagram-2025-01-09-223020.svg",
    codeExamples := [
      { title := "Inefficient List Rendering",
        code := "// Inefficient list rendering\nfunction ItemList(\x7b items \x7d) \x7b\n  return (\n    <div>\n      \x7bitems.map(item => (\n        <div key=\x7bitem.id\x7d>\n          <ExpensiveComponent item=\x7bitem\x7d />\n        </div>\n      ))\x7d\n    </div>\n  );\n\x7d",
        explanation := "This implementation re-renders all items unnecessarily, causing performance issues." },
      { title := "Optimized List Rendering",
        code := "// Optimized rendering with virtualization\nimport \x7b FixedSizeList \x7d from \x27react-window\x27;\n\nfunction ItemList(\x7b items \x7d) \x7b\n  const Row = (\x7b index, style \x7d) => (\n    <div style=\x7bstyle\x7d>\n      <MemoizedExpensiveComponent item=\x7bitems[index]\x7d />\n    </div>\n  );\n\n  return (\n    <FixedSizeList\n      height=\x7b400\x7d\n      width=\"100%\"\n      itemCount=\x7bitems.length\x7d\n      itemSize=\x7b50\x7d\n    >\n      \x7bRow\x7d\n    </FixedSizeList>\n  );\n\x7d\n\nconst MemoizedExpensiveComponent = React.memo(ExpensiveComponent);",
        explanation := "Using virtualization and memoization improves performance by only rendering visible items." }] },
  { id := "stack-trace",
    title := "Stack Trace Analyzer",
    description := "A structured approach to runtime error debugging, helping developers navigate complex stack traces, identify error sources, and implement error boundaries.",
    category := "RUNTIME",
    diagram := "https://raw.githubusercontent.com/noah-ing/Debug-Pics/refs/heads/main/mermaid-diagram-2025-01-09-223035.svg",
    codeExamples := [
      { title := "Basic Error Handling",
        code := "// Basic try-catch without proper error handling\ntry \x7b\n  throw new Error(\x27Something went wrong\x27);\n\x7d catch (error) \x7b\n  console.error(error);\n\x7d",
        explanation := "Simple error handling without proper stack trace analysis or error reporting." },
      { title := "Advanced Error Boundary",
        code := "// React Error Boundary with detailed error handling\nclass ErrorBoundary extends React.Component \x7b\n  state = \x7b hasError: false, error: null, errorInfo: null \x7d;\n  \n  componentDidCatch(error, errorInfo) \x7b\n    this.setState(\x7b\n      hasError: true,\n      error,\n      errorInfo\n    \x7d);\n    \n    // Log to error reporting service\n    logErrorToService(\x7b\n      error,\n      componentStack: errorInfo.componentStack,\n      userInfo: this.props.userInfo\n    \x7d);\n  \x7d\n  \n  render() \x7b\n    if (this.state.hasError) \x7b\n      return (\n        <div className=\"error-ui\">\n          <h2>Something went wrong</h2>\n          <details style=\x7b\x7b whiteSpace: \x27pre-wrap\x27 \x7d\x7d>\n            \x7bthis.state.error && this.state.error.toString()\x7d\n            <br />\n            \x7bthis.state.errorInfo.componentStack\x7d\n          </details>\n        </div>\n      );\n    \x7d\n    \n    return this.props.children;\n  \x7d\n\x7d",
        explanation := "Comprehensive error boundary implementation with detailed stack trace analysis and error reporting." }] }]

/-- Registry lookup by id, as the detail page performs it:
patterns.find(p => p.id === params.id) (PatternPage, src/unnamed/part_000
line 14). JS find returns undefined when nothing matches, so the result
is an Option; the lookup itself never throws. -/
def get (id : String) : Option Pattern :=
  patterns.find? (fun p => p.id == id)

/-- The full registry sequence as the list view consumes it: PatternGrid
maps over the imported patterns array directly (src/unnamed/part_003
lines 100-101). The unit argument records that every call reads the same
process-wide constant. -/
def list (_ : Unit) : List Pattern :=
  patterns

/-- Related patterns for a detail page, with the page's hardcoded count 2
generalized to a limit parameter as in the spec:
patterns.filter(p => p.id !== currentPattern.id).slice(0, 2)
(PatternPage, src/unnamed/part_000 line 136). JS slice(0, n) is take n. -/
def relatedTo (id : String) (limit : Nat) : List Pattern :=
  (patterns.filter (fun p => p.id != id)).take limit

/-- The exact related-patterns list the page renders (limit 2). -/
def relatedPatterns (id : String) : List Pattern :=
  relatedTo id 2

end Lib

namespace Data

/-- The fixed category enumeration (src/data/index.ts line 25). -/
inductive PatternCategory where
  | WORKFLOW
  | PERFORMANCE
  | INTEGRATION
  | STATE
  | RUNTIME
deriving Repr, DecidableEq

/-- The string each PatternCategory member denotes in the TS union type. -/
def PatternCategory.toStr : PatternCategory → String
  | .WORKFLOW => "WORKFLOW"
  | .PERFORMANCE => "PERFORMANCE"
  | .INTEGRATION => "INTEGRATION"
  | .STATE => "STATE"
  | .RUNTIME => "RUNTIME"

/-- All members of the enumeration, in declaration order. -/
def PatternCategory.all : List PatternCategory :=
  [.WORKFLOW, .PERFORMANCE, .INTEGRATION, .STATE, .RUNTIME]

/-- The language tag union 'typescript' | 'python' (src/data/index.ts
line 4, also the state type of ImplementationBlock in
src/components/code-block.tsx line 49). -/
inductive Language where
  | typescript
  | python
deriving Repr, DecidableEq

/-- Rich code example record (src/data/index.ts lines 2-7). -/
structure CodeExample where
  title : String
  language : Language
  code : String
  explanation : String
deriving Repr

/-- The implementation mapping of the rich Pattern type (src/data/index.ts
lines 16-19): one full source text per language tag. -/
structure Implementation where
  typescript : String
  python : String
deriving Repr

/-- The rich Pattern record (src/data/index.ts lines 9-23). -/
structure Pattern where
  id : String
  title : String
  description : String
  category : PatternCategory
  diagram : String
  useCases : List String
  implementation : Implementation
  codeExamples : List CodeExample
  bestPractices : List String
  commonPitfalls : List String
deriving Repr

/-- Rich registry entry `asyncPromiseHellPattern` (src/data/patterns/async-promise-hell.ts). -/
def asyncPromiseHellPattern : Pattern :=
  { id := "async-promise-hell",
    title := "Promise Chaining",
    description := "Visualize and debug complex asynchronous flows and promise chains for structured reasoning and step-by-step task completion.",
    category := PatternCategory.WORKFLOW,
    diagram := "https://raw.githubusercontent.com/noah-ing/Debug-Pics/refs/heads/main/mermaid-diagram-2025-01-09-222927.svg",
    useCases := ["Complex data fetching workflows",
      "Multi-step form submissions",
      "Dependent API calls",
      "Resource cleanup chains"],
    implementation :=
      { typescript := "// Real-world example: User checkout flow with inventory check, payment, and order creation\ninterface InventoryCheck \x7b\n  productId: string;\n  available: boolean;\n  quantity: number;\n\x7d\n\ninterface PaymentResult \x7b\n  transactionId: string;\n  status: \x27success\x27 | \x27failed\x27;\n  amount: number;\n\x7d\n\ninterface Order \x7b\n  orderId: string;\n  userId: string;\n  items: Array<\x7b productId: string; quantity: number \x7d>;\n  status: \x27pending\x27 | \x27confirmed\x27 | \x27failed\x27;\n\x7d\n\nclass CheckoutService \x7b\n  private logger = console; // Replace with your logging service\n\n  async processCheckout(\n    userId: string,\n    items: Array<\x7b productId: string; quantity: number \x7d>\n  ): Promise<Order> \x7b\n    try \x7b\n      // Step 1: Check inventory for all items\n      const inventoryChecks = await this.checkInventory(items);\n      const unavailableItems = inventoryChecks.filter(check => !check.available);\n      \n      if (unavailableItems.length > 0) \x7b\n        throw new Error(\x60Items out of stock: $\x7bunavailableItems.map(item => item.productId).join(\x27, \x27)\x7d\x60);\n      \x7d\n\n      // Step 2: Calculate total and process payment\n      const total = await this.calculateTotal(items);\n      const paymentResult = await this.processPayment(userId, total);\n\n      if (paymentResult.status === \x27failed\x27) \x7b\n        throw new Error(\x60Payment failed for transaction $\x7bpaymentResult.transactionId\x7d\x60);\n      \x7d\n\n      // Step 3: Create order\n      const order = await this.createOrder(userId, items, paymentResult);\n      \n      // Step 4: Update inventory (should be transactional in production)\n      await this.updateInventory(items);\n\n      this.logger.info(\x27Checkout completed successfully\x27, \x7b\n        orderId: order.orderId,\n        userId,\n        items: items.length,\n        total: paymentResult.amount\n      \x7d);\n\n      return order;\n\n    \x7d catch (error) \x7b\n      this.logger.error(\x27Checkout process failed\x27, \x7b\n        userId,\n        items: items.length,\n        error: error instanceof Error ? error.message : \x27Unknown error\x27\n      \x7d);\n\n      // Attempt cleanup/rollback if needed\n      await this.handleCheckoutError(error, userId, items);\n      \n      throw error;\n    \x7d\n  \x7d\n\n  private async checkInventory(\n    items: Array<\x7b productId: string; quantity: number \x7d>\n  ): Promise<InventoryCheck[]> \x7b\n    try \x7b\n      // Parallel inventory checks for all items\n      return await Promise.all(\n        items.map(async item => \x7b\n          const inventory = await this.inventoryAPI.check(item.productId);\n          return \x7b\n            productId: item.productId,\n            available: inventory.quantity >= item.quantity,\n            quantity: inventory.quantity\n          \x7d;\n        \x7d)\n      );\n    \x7d catch (error) \x7b\n      this.logger.error(\x27Inventory check failed\x27, \x7b items, error \x7d);\n      throw new Error(\x27Failed to verify inventory availability\x27);\n    \x7d\n  \x7d\n\n  private async calculateTotal(\n    items: Array<\x7b productId: string; quantity: number \x7d>\n  ): Promise<number> \x7b\n    try \x7b\n      const prices = await Promise.all(\n        items.map(item => this.pricingAPI.get(item.productId))\n      );\n\n      return items.reduce((total, item, index) => \x7b\n        return total + (prices[index] * item.quantity);\n      \x7d, 0);\n    \x7d catch (error) \x7b\n      this.logger.error(\x27Price calculation failed\x27, \x7b items, error \x7d);\n      throw new Error(\x27Failed to calculate order total\x27);\n    \x7d\n  \x7d\n\n  private async processPayment(\n    userId: string,\n    amount: number\n  ): Promise<PaymentResult> \x7b\n    try \x7b\n      const paymentResult = await this.paymentAPI.charge(\x7b\n        userId,\n        amount,\n        currency: \x27USD\x27\n      \x7d);\n\n      this.logger.info(\x27Payment processed\x27, \x7b\n        userId,\n        amount,\n        transactionId: paymentResult.transactionId\n      \x7d);\n\n      return paymentResult;\n    \x7d catch (error) \x7b\n      this.logger.error(\x27Payment processing failed\x27, \x7b\n        userId,\n        amount,\n        error\n      \x7d);\n      throw new Error(\x27Payment processing failed\x27);\n    \x7d\n  \x7d\n\n  private async createOrder(\n    userId: string,\n    items: Array<\x7b productId: string; quantity: number \x7d>,\n    payment: PaymentResult\n  ): Promise<Order> \x7b\n    try \x7b\n      const order = await this.orderAPI.create(\x7b\n        userId,\n        items,\n        paymentId: payment.transactionId,\n        status: \x27confirmed\x27\n      \x7d);\n\n      this.logger.info(\x27Order created\x27, \x7b\n        orderId: order.orderId,\n        userId,\n        items: items.length\n      \x7d);\n\n      return order;\n    \x7d catch (error) \x7b\n      this.logger.error(\x27Order creation failed\x27, \x7b\n        userId,\n        items,\n        paymentId: payment.transactionId,\n        error\n      \x7d);\n      throw new Error(\x27Failed to create order\x27);\n    \x7d\n  \x7d\n\n  private async updateInventory(\n    items: Array<\x7b productId: string; quantity: number \x7d>\n  ): Promise<void> \x7b\n    try \x7b\n      await Promise.all(\n        items.map(item =>\n          this.inventoryAPI.decrease(item.productId, item.quantity)\n        )\n      );\n    \x7d catch (error) \x7b\n      this.logger.error(\x27Inventory update failed\x27, \x7b items, error \x7d);\n      throw new Error(\x27Failed to update inventory\x27);\n    \x7d\n  \x7d\n\n  private async handleCheckoutError(\n    error: unknown,\n    userId: string,\n    items: Array<\x7b productId: string; quantity: number \x7d>\n  ): Promise<void> \x7b\n    this.logger.warn(\x27Initiating checkout error cleanup\x27, \x7b\n      userId,\n      items: items.length,\n      error\n    \x7d);\n\n    try \x7b\n      // Implement your cleanup/rollback logic here\n      // For example:\n      // - Refund payment if it was processed\n      // - Restore inventory if it was decreased\n      // - Update order status if it was created\n    \x7d catch (cleanupError) \x7b\n      this.logger.error(\x27Cleanup after checkout failure failed\x27, \x7b\n        originalError: error,\n        cleanupError\n      \x7d);\n    \x7d\n  \x7d\n\x7d\n\n// Usage Example\nasync function handleUserCheckout(userId: string, cartItems: CartItem[]) \x7b\n  const checkoutService = new CheckoutService();\n  \n  try \x7b\n    const order = await checkoutService.processCheckout(userId, cartItems);\n    \n    // Handle successful checkout\n    notifyUser(userId, \x7b\n      type: \x27checkout_success\x27,\n      orderId: order.orderId\n    \x7d);\n    \n  \x7d catch (error) \x7b\n    // Handle checkout failure\n    notifyUser(userId, \x7b\n      type: \x27checkout_failed\x27,\n      error: error instanceof Error ? error.message : \x27Checkout failed\x27\n    \x7d);\n    \n    // Redirect to error page or show error message\n    throw error;\n  \x7d\n\x7d",
        python := "# Real-world example: User checkout flow with inventory check, payment, and order creation\nfrom dataclasses import dataclass\nfrom typing import List, Optional\nfrom datetime import datetime\nimport logging\nimport asyncio\nfrom enum import Enum\n\nclass OrderStatus(Enum):\n    PENDING = \"pending\"\n    CONFIRMED = \"confirmed\"\n    FAILED = \"failed\"\n\n@dataclass\nclass CartItem:\n    product_id: str\n    quantity: int\n\n@dataclass\nclass InventoryCheck:\n    product_id: str\n    available: bool\n    quantity: int\n\n@dataclass\nclass PaymentResult:\n    transaction_id: str\n    status: str\n    amount: float\n\n@dataclass\nclass Order:\n    order_id: str\n    user_id: str\n    items: List[CartItem]\n    status: OrderStatus\n    created_at: datetime\n\nclass CheckoutError(Exception):\n    \"\"\"Base exception for checkout process errors\"\"\"\n    pass\n\nclass InventoryError(CheckoutError):\n    \"\"\"Raised when inventory check fails\"\"\"\n    pass\n\nclass PaymentError(CheckoutError):\n    \"\"\"Raised when payment processing fails\"\"\"\n    pass\n\nclass OrderError(CheckoutError):\n    \"\"\"Raised when order creation fails\"\"\"\n    pass\n\nclass CheckoutService:\n    def __init__(self):\n        self.logger = logging.getLogger(__name__)\n\n    async def process_checkout(\n        self,\n        user_id: str,\n        items: List[CartItem]\n    ) -> Order:\n        \"\"\"\n        Process a user\x27s checkout, handling inventory, payment, and order creation.\n        \n        Args:\n            user_id: The ID of the user making the purchase\n            items: List of items in the cart\n            \n        Returns:\n            Order: The created order if successful\n            \n        Raises:\n            InventoryError: If items are not available\n            PaymentError: If payment processing fails\n            OrderError: If order creation fails\n        \"\"\"\n        try:\n            # Step 1: Check inventory\n            inventory_checks = await self._check_inventory(items)\n            unavailable = [\n                check for check in inventory_checks \n                if not check.available\n            ]\n            \n            if unavailable:\n                raise InventoryError(\n                    f\"Items out of stock: \x7b\x27, \x27.join(i.product_id for i in unavailable)\x7d\"\n                )\n\n            # Step 2: Calculate total and process payment\n            total = await self._calculate_total(items)\n            payment = await self._process_payment(user_id, total)\n\n            if payment.status != \"success\":\n                raise PaymentError(\n                    f\"Payment failed: \x7bpayment.transaction_id\x7d\"\n                )\n\n            # Step 3: Create order\n            order = await self._create_order(user_id, items, payment)\n            \n            # Step 4: Update inventory\n            await self._update_inventory(items)\n\n            self.logger.info(\n                \"Checkout completed successfully\",\n                extra=\x7b\n                    \"order_id\": order.order_id,\n                    \"user_id\": user_id,\n                    \"items_count\": len(items),\n                    \"total\": payment.amount\n                \x7d\n            )\n\n            return order\n\n        except Exception as error:\n            self.logger.error(\n                \"Checkout process failed\",\n                extra=\x7b\n                    \"user_id\": user_id,\n                    \"items_count\": len(items),\n                    \"error\": str(error)\n                \x7d,\n                exc_info=True\n            )\n\n            # Attempt cleanup/rollback\n            await self._handle_checkout_error(error, user_id, items)\n            \n            raise\n\n    async def _check_inventory(\n        self,\n        items: List[CartItem]\n    ) -> List[InventoryCheck]:\n        \"\"\"Check inventory availability for all items\"\"\"\n        try:\n            # Parallel inventory checks\n            checks = await asyncio.gather(*[\n                self.inventory_api.check(item.product_id)\n                for item in items\n            ])\n            \n            return [\n                InventoryCheck(\n                    product_id=item.product_id,\n                    available=check.quantity >= item.quantity,\n                    quantity=check.quantity\n                )\n                for item, check in zip(items, checks)\n            ]\n            \n        except Exception as error:\n            self.logger.error(\n                \"Inventory check failed\",\n                extra=\x7b\"items\": items\x7d,\n                exc_info=True\n            )\n            raise InventoryError(\"Failed to verify inventory\") from error\n\n    async def _calculate_total(\n        self,\n        items: List[CartItem]\n    ) -> float:\n        \"\"\"Calculate total price for all items\"\"\"\n        try:\n            # Fetch prices in parallel\n            prices = await asyncio.gather(*[\n                self.pricing_api.get_price(item.product_id)\n                for item in items\n            ])\n            \n            return sum(\n                price * item.quantity\n                for price, item in zip(prices, items)\n            )\n            \n        except Exception as error:\n            self.logger.error(\n                \"Price calculation failed\",\n                extra=\x7b\"items\": items\x7d,\n                exc_info=True\n            )\n            raise CheckoutError(\"Failed to calculate total\") from error\n\n    async def _process_payment(\n        self,\n        user_id: str,\n        amount: float\n    ) -> PaymentResult:\n        \"\"\"Process payment for the order\"\"\"\n        try:\n            result = await self.payment_api.charge(\x7b\n                \"user_id\": user_id,\n                \"amount\": amount,\n                \"currency\": \"USD\"\n            \x7d)\n\n            self.logger.info(\n                \"Payment processed\",\n                extra=\x7b\n                    \"user_id\": user_id,\n                    \"amount\": amount,\n                    \"transaction_id\": result.transaction_id\n                \x7d\n            )\n\n            return result\n            \n        except Exception as error:\n            self.logger.error(\n                \"Payment processing failed\",\n                extra=\x7b\n                    \"user_id\": user_id,\n                    \"amount\": amount\n                \x7d,\n                exc_info=True\n            )\n            raise PaymentError(\"Payment processing failed\") from error\n\n    async def _create_order(\n        self,\n        user_id: str,\n        items: List[CartItem],\n        payment: PaymentResult\n    ) -> Order:\n        \"\"\"Create order record\"\"\"\n        try:\n            order = await self.order_api.create(\x7b\n                \"user_id\": user_id,\n                \"items\": items,\n                \"payment_id\": payment.transaction_id,\n                \"status\": OrderStatus.CONFIRMED\n            \x7d)\n\n            self.logger.info(\n                \"Order created\",\n                extra=\x7b\n                    \"order_id\": order.order_id,\n                    \"user_id\": user_id,\n                    \"items_count\": len(items)\n                \x7d\n            )\n\n            return order\n            \n        except Exception as error:\n            self.logger.error(\n                \"Order creation failed\",\n                extra=\x7b\n                    \"user_id\": user_id,\n                    \"items\": items,\n                    \"payment_id\": payment.transaction_id\n                \x7d,\n                exc_info=True\n            )\n            raise OrderError(\"Failed to create order\") from error\n\n    async def _update_inventory(\n        self,\n        items: List[CartItem]\n    ) -> None:\n        \"\"\"Update inventory levels\"\"\"\n        try:\n            await asyncio.gather(*[\n                self.inventory_api.decrease(\n                    item.product_id,\n                    item.quantity\n                )\n                for item in items\n            ])\n            \n        except Exception as error:\n            self.logger.error(\n                \"Inventory update failed\",\n                extra=\x7b\"items\": items\x7d,\n                exc_info=True\n            )\n            raise InventoryError(\"Failed to update inventory\") from error\n\n    async def _handle_checkout_error(\n        self,\n        error: Exception,\n        user_id: str,\n        items: List[CartItem]\n    ) -> None:\n        \"\"\"Handle cleanup/rollback after checkout failure\"\"\"\n        self.logger.warning(\n            \"Initiating checkout error cleanup\",\n            extra=\x7b\n                \"user_id\": user_id,\n                \"items_count\": len(items),\n                \"error\": str(error)\n            \x7d\n        )\n\n        try:\n            # Implement cleanup/rollback logic\n            # For example:\n            # - Refund payment if processed\n            # - Restore inventory if decreased\n            # - Update order status if created\n            pass\n            \n        except Exception as cleanup_error:\n            self.logger.error(\n                \"Cleanup after checkout failure failed\",\n                extra=\x7b\n                    \"original_error\": str(error),\n                    \"cleanup_error\": str(cleanup_error)\n                \x7d,\n                exc_info=True\n            )\n\n# Usage Example\nasync def handle_user_checkout(user_id: str, cart_items: List[CartItem]):\n    checkout_service = CheckoutService()\n    \n    try:\n        order = await checkout_service.process_checkout(\n            user_id,\n            cart_items\n        )\n        \n        # Handle successful checkout\n        await notify_user(user_id, \x7b\n            \"type\": \"checkout_success\",\n            \"order_id\": order.order_id\n        \x7d)\n        \n    except CheckoutError as error:\n        # Handle checkout failure\n        await notify_user(user_id, \x7b\n            \"type\": \"checkout_failed\",\n            \"error\": str(error)\n        \x7d)\n        \n        # Redirect to error page or show error message\n        raise" },
    codeExamples := [
      { title := "Common Promise Chain Issues",
        language := Language.typescript,
        code := "// \u274c Common Issues in Promise Chains\nasync function processOrder(orderId: string) \x7b\n  // Issue 1: No error handling\n  const order = await fetchOrder(orderId);\n  const user = await fetchUser(order.userId);\n  await processPayment(order.amount);\n  \n  // Issue 2: Sequential requests that could be parallel\n  const items = [];\n  for (const itemId of order.itemIds) \x7b\n    const item = await fetchItem(itemId);\n    items.push(item);\n  \x7d\n  \n  // Issue 3: No cleanup on failure\n  await updateInventory(items);\n  await sendConfirmation(user.email);\n\x7d",
        explanation := "Common issues include lack of error handling, inefficient sequential requests, and missing cleanup logic." },
      { title := "Improved Promise Chain",
        language := Language.typescript,
        code := "// \u2705 Better Promise Chain Implementation\nasync function processOrder(orderId: string) \x7b\n  let inventoryUpdated = false;\n  \n  try \x7b\n    // Fetch order and user in parallel\n    const [order, user] = await Promise.all([\n      fetchOrder(orderId),\n      fetchUser(order.userId)\n    ]);\n\n    // Validate order status\n    if (order.status !== \x27pending\x27) \x7b\n      throw new Error(\x60Invalid order status: $\x7border.status\x7d\x60);\n    \x7d\n\n    // Process payment with retry logic\n    const payment = await retry(\n      () => processPayment(order.amount),\n      \x7b maxAttempts: 3 \x7d\n    );\n\n    // Fetch items in parallel\n    const items = await Promise.all(\n      order.itemIds.map(fetchItem)\n    );\n\n    // Update inventory with transaction\n    await beginTransaction();\n    await updateInventory(items);\n    inventoryUpdated = true;\n    await commitTransaction();\n\n    // Send confirmation\n    await sendConfirmation(user.email);\n\n    logger.info(\x27Order processed successfully\x27, \x7b\n      orderId,\n      userId: user.id,\n      amount: order.amount\n    \x7d);\n\n  \x7d catch (error) \x7b\n    logger.error(\x27Order processing failed\x27, \x7b\n      orderId,\n      error: error instanceof Error ? error.message : \x27Unknown error\x27\n    \x7d);\n\n    // Cleanup: Rollback inventory if needed\n    if (inventoryUpdated) \x7b\n      try \x7b\n        await rollbackInventory(items);\n      \x7d catch (rollbackError) \x7b\n        logger.error(\x27Inventory rollback failed\x27, \x7b\n          orderId,\n          error: rollbackError\n        \x7d);\n      \x7d\n    \x7d\n\n    throw error;\n  \x7d\n\x7d",
        explanation := "This improved version includes parallel requests, proper error handling, cleanup logic, and logging." }],
    bestPractices := ["Use Promise.all() for parallel operations when requests are independent",
      "Implement proper error handling with specific error types",
      "Add logging for debugging and monitoring",
      "Include cleanup/rollback logic for failures",
      "Use transactions for related operations",
      "Implement retry logic for transient failures",
      "Add proper TypeScript types for better maintainability"],
    commonPitfalls := ["Running requests sequentially when they could be parallel",
      "Missing error handling or using generic catch-all handlers",
      "Not implementing cleanup logic for partial failures",
      "Forgetting to log important events and errors",
      "Not handling edge cases in the business logic",
      "Missing type definitions leading to runtime errors"] }

/-- Rich registry entry `memoryLeaksPattern` (src/data/patterns/memory-leaks.ts). -/
def memoryLeaksPattern : Pattern :=
  { id := "memory-leaks",
    title := "Memory Leaks 101",
    description := "A systematic approach to identifying and fixing memory leaks through heap snapshot analysis, memory usage visualization, and common leak pattern detection.",
    category := PatternCategory.PERFORMANCE,
    diagram := "https://raw.githubusercontent.com/noah-ing/Debug-Pics/refs/heads/main/mermaid-diagram-2025-01-09-224808.svg",
    useCases := ["Long-running web applications",
      "Single-page applications (SPAs)",
      "Real-time data processing systems",
      "Applications with dynamic component loading"],
    implementation :=
      { typescript := "// Real-world example: Memory leak detection and prevention in a React-like application\ninterface Subscription \x7b\n  unsubscribe(): void;\n\x7d\n\ninterface CacheOptions \x7b\n  maxSize?: number;\n  ttl?: number;\n\x7d\n\n// Memory-safe cache implementation with size and TTL limits\nclass LRUCache<K, V> \x7b\n  private cache: Map<K, \x7b value: V; timestamp: number \x7d>;\n  private maxSize: number;\n  private ttl: number;\n\n  constructor(options: CacheOptions = \x7b\x7d) \x7b\n    this.cache = new Map();\n    this.maxSize = options.maxSize || 1000;\n    this.ttl = options.ttl || 3600000; // 1 hour default\n    \n    // Periodic cleanup to prevent memory leaks\n    setInterval(() => this.cleanup(), 60000);\n  \x7d\n\n  set(key: K, value: V): void \x7b\n    // Enforce size limit\n    if (this.cache.size >= this.maxSize) \x7b\n      const oldestKey = this.cache.keys().next().value;\n      this.cache.delete(oldestKey);\n    \x7d\n\n    this.cache.set(key, \x7b\n      value,\n      timestamp: Date.now()\n    \x7d);\n  \x7d\n\n  get(key: K): V | undefined \x7b\n    const item = this.cache.get(key);\n    \n    if (!item) return undefined;\n\n    // Check TTL\n    if (Date.now() - item.timestamp > this.ttl) \x7b\n      this.cache.delete(key);\n      return undefined;\n    \x7d\n\n    return item.value;\n  \x7d\n\n  private cleanup(): void \x7b\n    const now = Date.now();\n    for (const [key, item] of this.cache.entries()) \x7b\n      if (now - item.timestamp > this.ttl) \x7b\n        this.cache.delete(key);\n      \x7d\n    \x7d\n  \x7d\n\x7d\n\n// Memory-safe event emitter with automatic cleanup\nclass EventEmitter \x7b\n  private events: Map<string, Set<WeakRef<Function>>>;\n  private cleanupInterval: number;\n\n  constructor() \x7b\n    this.events = new Map();\n    \n    // Periodic cleanup of dead references\n    this.cleanupInterval = setInterval(() => this.cleanup(), 30000);\n  \x7d\n\n  on(event: string, callback: Function): Subscription \x7b\n    if (!this.events.has(event)) \x7b\n      this.events.set(event, new Set());\n    \x7d\n\n    const callbacks = this.events.get(event)!;\n    const weakCallback = new WeakRef(callback);\n    callbacks.add(weakCallback);\n\n    return \x7b\n      unsubscribe: () => \x7b\n        callbacks.delete(weakCallback);\n        if (callbacks.size === 0) \x7b\n          this.events.delete(event);\n        \x7d\n      \x7d\n    \x7d;\n  \x7d\n\n  emit(event: string, ...args: any[]): void \x7b\n    const callbacks = this.events.get(event);\n    if (!callbacks) return;\n\n    for (const weakCallback of callbacks) \x7b\n      const callback = weakCallback.deref();\n      if (callback) \x7b\n        callback(...args);\n      \x7d else \x7b\n        callbacks.delete(weakCallback);\n      \x7d\n    \x7d\n  \x7d\n\n  private cleanup(): void \x7b\n    for (const [event, callbacks] of this.events.entries()) \x7b\n      for (const weakCallback of callbacks) \x7b\n        if (!weakCallback.deref()) \x7b\n          callbacks.delete(weakCallback);\n        \x7d\n      \x7d\n      if (callbacks.size === 0) \x7b\n        this.events.delete(event);\n      \x7d\n    \x7d\n  \x7d\n\n  destroy(): void \x7b\n    clearInterval(this.cleanupInterval);\n    this.events.clear();\n  \x7d\n\x7d\n\n// Memory-safe component base class\nabstract class Component \x7b\n  private subscriptions: Set<Subscription>;\n  private timers: Set<number>;\n  private eventEmitter: EventEmitter;\n  private mounted: boolean;\n\n  constructor() \x7b\n    this.subscriptions = new Set();\n    this.timers = new Set();\n    this.eventEmitter = new EventEmitter();\n    this.mounted = false;\n  \x7d\n\n  protected onMount(): void \x7b\n    this.mounted = true;\n  \x7d\n\n  protected onUnmount(): void \x7b\n    this.mounted = false;\n    this.cleanup();\n  \x7d\n\n  // Safe subscription management\n  protected subscribe(subscription: Subscription): void \x7b\n    this.subscriptions.add(subscription);\n  \x7d\n\n  // Safe timer management\n  protected setTimeout(callback: () => void, delay: number): number \x7b\n    const id = window.setTimeout(() => \x7b\n      if (this.mounted) \x7b\n        callback();\n      \x7d\n      this.timers.delete(id);\n    \x7d, delay);\n    \n    this.timers.add(id);\n    return id;\n  \x7d\n\n  protected setInterval(callback: () => void, delay: number): number \x7b\n    const id = window.setInterval(() => \x7b\n      if (!this.mounted) \x7b\n        clearInterval(id);\n        this.timers.delete(id);\n        return;\n      \x7d\n      callback();\n    \x7d, delay);\n    \n    this.timers.add(id);\n    return id;\n  \x7d\n\n  // Safe event listener management\n  protected addEventListener(\n    target: EventTarget,\n    type: string,\n    listener: EventListener,\n    options?: AddEventListenerOptions\n  ): void \x7b\n    target.addEventListener(type, listener, options);\n    this.subscriptions.add(\x7b\n      unsubscribe: () => target.removeEventListener(type, listener)\n    \x7d);\n  \x7d\n\n  private cleanup(): void \x7b\n    // Clear subscriptions\n    for (const subscription of this.subscriptions) \x7b\n      subscription.unsubscribe();\n    \x7d\n    this.subscriptions.clear();\n\n    // Clear timers\n    for (const timer of this.timers) \x7b\n      clearTimeout(timer);\n    \x7d\n    this.timers.clear();\n\n    // Cleanup event emitter\n    this.eventEmitter.destroy();\n  \x7d\n\x7d\n\n// Example usage\nclass DataGrid extends Component \x7b\n  private cache: LRUCache<string, any>;\n  \n  constructor() \x7b\n    super();\n    this.cache = new LRUCache(\x7b maxSize: 100, ttl: 300000 \x7d); // 5 minutes TTL\n  \x7d\n\n  protected onMount(): void \x7b\n    super.onMount();\n\n    // Safe event listener\n    this.addEventListener(window, \x27resize\x27, this.handleResize);\n\n    // Safe interval\n    this.setInterval(this.refreshData, 60000);\n\n    // Safe subscription\n    const subscription = dataService.subscribe(\n      this.handleDataUpdate\n    );\n    this.subscribe(subscription);\n  \x7d\n\n  private handleResize = () => \x7b\n    // Handle resize logic\n  \x7d;\n\n  private refreshData = () => \x7b\n    // Refresh data logic\n  \x7d;\n\n  private handleDataUpdate = (data: any) => \x7b\n    this.cache.set(\x27latestData\x27, data);\n  \x7d;\n\x7d",
        python := "# Real-world example: Memory leak prevention in a data processing pipeline\nfrom typing import Dict, Set, Optional, Any, Callable\nfrom datetime import datetime, timedelta\nimport weakref\nimport threading\nimport logging\nfrom contextlib import contextmanager\nfrom collections import OrderedDict\nimport gc\n\nclass LRUCache:\n    \"\"\"Thread-safe LRU cache with size and TTL limits.\"\"\"\n    \n    def __init__(self, max_size: int = 1000, ttl: int = 3600):\n        self._cache: OrderedDict = OrderedDict()\n        self._max_size = max_size\n        self._ttl = ttl  # seconds\n        self._lock = threading.Lock()\n        self._cleanup_thread = threading.Thread(\n            target=self._cleanup_loop,\n            daemon=True\n        )\n        self._cleanup_thread.start()\n        self.logger = logging.getLogger(__name__)\n\n    def get(self, key: str) -> Optional[Any]:\n        \"\"\"Get value from cache with TTL check.\"\"\"\n        with self._lock:\n            if key not in self._cache:\n                return None\n                \n            value, timestamp = self._cache[key]\n            if datetime.now() - timestamp > timedelta(seconds=self._ttl):\n                del self._cache[key]\n                return None\n                \n            # Move to end (most recently used)\n            self._cache.move_to_end(key)\n            return value\n\n    def set(self, key: str, value: Any) -> None:\n        \"\"\"Set value in cache with size limit enforcement.\"\"\"\n        with self._lock:\n            # Remove oldest if at size limit\n            if len(self._cache) >= self._max_size:\n                self._cache.popitem(last=False)\n                \n            self._cache[key] = (value, datetime.now())\n\n    def _cleanup_loop(self) -> None:\n        \"\"\"Periodic cleanup of expired entries.\"\"\"\n        while True:\n            try:\n                self._cleanup()\n                threading.Event().wait(60)  # Clean every minute\n            except Exception as e:\n                self.logger.error(f\"Cache cleanup error: \x7be\x7d\")\n\n    def _cleanup(self) -> None:\n        \"\"\"Remove expired entries.\"\"\"\n        now = datetime.now()\n        with self._lock:\n            expired = [\n                key for key, (_, timestamp) in self._cache.items()\n                if now - timestamp > timedelta(seconds=self._ttl)\n            ]\n            for key in expired:\n                del self._cache[key]\n\nclass ResourceManager:\n    \"\"\"Safe resource management with automatic cleanup.\"\"\"\n    \n    def __init__(self):\n        self._resources: Set[Any] = set()\n        self._lock = threading.Lock()\n        self.logger = logging.getLogger(__name__)\n\n    def register(self, resource: Any) -> None:\n        \"\"\"Register a resource for management.\"\"\"\n        with self._lock:\n            self._resources.add(resource)\n\n    def unregister(self, resource: Any) -> None:\n        \"\"\"Unregister a managed resource.\"\"\"\n        with self._lock:\n            self._resources.discard(resource)\n\n    def cleanup(self) -> None:\n        \"\"\"Clean up all managed resources.\"\"\"\n        with self._lock:\n            for resource in self._resources:\n                try:\n                    if hasattr(resource, \x27close\x27):\n                        resource.close()\n                    elif hasattr(resource, \x27cleanup\x27):\n                        resource.cleanup()\n                except Exception as e:\n                    self.logger.error(f\"Resource cleanup error: \x7be\x7d\")\n            self._resources.clear()\n\nclass WeakCallbackRegistry:\n    \"\"\"Registry for callbacks that doesn\x27t prevent garbage collection.\"\"\"\n    \n    def __init__(self):\n        self._callbacks: Set[weakref.ref] = set()\n        self._lock = threading.Lock()\n\n    def register(self, callback: Callable) -> None:\n        \"\"\"Register a callback using weak reference.\"\"\"\n        def cleanup(ref: weakref.ref) -> None:\n            with self._lock:\n                self._callbacks.discard(ref)\n\n        with self._lock:\n            self._callbacks.add(weakref.ref(callback, cleanup))\n\n    def notify(self, *args, **kwargs) -> None:\n        \"\"\"Notify all registered callbacks.\"\"\"\n        with self._lock:\n            for ref in list(self._callbacks):\n                callback = ref()\n                if callback is not None:\n                    try:\n                        callback(*args, **kwargs)\n                    except Exception as e:\n                        logging.error(f\"Callback error: \x7be\x7d\")\n\nclass DataProcessor:\n    \"\"\"Example data processor with memory leak prevention.\"\"\"\n    \n    def __init__(self):\n        self.cache = LRUCache(max_size=1000, ttl=300)  # 5 minutes TTL\n        self.resource_manager = ResourceManager()\n        self.callbacks = WeakCallbackRegistry()\n        self.logger = logging.getLogger(__name__)\n\n    @contextmanager\n    def process_batch(self, batch_id: str):\n        \"\"\"Process a batch of data with automatic resource cleanup.\"\"\"\n        self.logger.info(f\"Starting batch \x7bbatch_id\x7d\")\n        temp_resources = set()\n        \n        try:\n            yield self._get_batch_context(temp_resources)\n            \n        except Exception as e:\n            self.logger.error(f\"Batch \x7bbatch_id\x7d failed: \x7be\x7d\")\n            raise\n            \n        finally:\n            # Cleanup temporary resources\n            for resource in temp_resources:\n                try:\n                    resource.close()\n                except Exception as e:\n                    self.logger.error(f\"Resource cleanup error: \x7be\x7d\")\n            \n            # Force garbage collection\n            gc.collect()\n\n    def _get_batch_context(self, temp_resources: Set[Any]) -> Dict[str, Any]:\n        \"\"\"Create batch processing context.\"\"\"\n        return \x7b\n            \x27cache\x27: self.cache,\n            \x27temp_resources\x27: temp_resources,\n            \x27register_callback\x27: self.callbacks.register\n        \x7d\n\n    def cleanup(self) -> None:\n        \"\"\"Clean up all resources.\"\"\"\n        self.resource_manager.cleanup()\n        self.cache = None  # Allow cache to be garbage collected\n\n# Example usage\ndef process_data_stream(stream_id: str, data: Any):\n    processor = DataProcessor()\n    \n    try:\n        with processor.process_batch(stream_id) as context:\n            # Cache frequently accessed data\n            cached_config = context[\x27cache\x27].get(\x27config\x27)\n            if not cached_config:\n                cached_config = load_config()\n                context[\x27cache\x27].set(\x27config\x27, cached_config)\n            \n            # Process data with memory-safe callback\n            def update_callback(result: Any):\n                # Handle result\n                pass\n            \n            context[\x27register_callback\x27](update_callback)\n            \n            # Process data...\n            \n    finally:\n        processor.cleanup()" },
    codeExamples := [
      { title := "Common Memory Leak Patterns",
        language := Language.typescript,
        code := "// \u274c Common memory leak patterns\nclass DataComponent \x7b\n  private eventHandlers = new Set();\n  private cache = \x7b\x7d;\n  \n  constructor() \x7b\n    // Issue 1: Unbounded cache growth\n    this.cache = \x7b\x7d;\n    \n    // Issue 2: Event listener not removed\n    window.addEventListener(\x27resize\x27, this.handleResize);\n    \n    // Issue 3: Interval not cleared\n    setInterval(this.fetchData, 5000);\n    \n    // Issue 4: Closure keeping reference\n    const data = \x7b value: \x27test\x27 \x7d;\n    this.eventHandlers.add(() => \x7b\n      console.log(data.value);\n    \x7d);\n  \x7d\n  \n  handleResize = () => \x7b\n    // Handle resize\n  \x7d;\n  \n  fetchData = () => \x7b\n    // Fetch and cache data\n    this.cache[Date.now()] = \x27data\x27;\n  \x7d;\n\x7d",
        explanation := "Common memory leaks include unbounded caches, uncleared intervals, uncleaned event listeners, and closure references." },
      { title := "Memory-Safe Implementation",
        language := Language.typescript,
        code := "// \u2705 Memory-safe implementation\nclass DataComponent \x7b\n  private eventHandlers = new Set<() => void>();\n  private cache = new LRUCache<string, any>(\x7b maxSize: 100 \x7d);\n  private intervalId?: number;\n  \n  constructor() \x7b\n    // Bounded LRU cache\n    this.cache = new LRUCache(\x7b maxSize: 100, ttl: 3600000 \x7d);\n    \n    // Tracked event listener\n    this.addEventHandler(\n      \x27resize\x27,\n      this.handleResize\n    );\n    \n    // Tracked interval\n    this.intervalId = window.setInterval(this.fetchData, 5000);\n  \x7d\n  \n  private addEventHandler(\n    event: string,\n    handler: EventListener\n  ): void \x7b\n    window.addEventListener(event, handler);\n    this.eventHandlers.add(\n      () => window.removeEventListener(event, handler)\n    );\n  \x7d\n  \n  handleResize = () => \x7b\n    // Handle resize\n  \x7d;\n  \n  fetchData = () => \x7b\n    // Cache with TTL\n    this.cache.set(Date.now().toString(), \x27data\x27);\n  \x7d;\n  \n  destroy(): void \x7b\n    // Clean up event listeners\n    for (const cleanup of this.eventHandlers) \x7b\n      cleanup();\n    \x7d\n    this.eventHandlers.clear();\n    \n    // Clear interval\n    if (this.intervalId) \x7b\n      clearInterval(this.intervalId);\n    \x7d\n    \n    // Clear cache\n    this.cache.clear();\n  \x7d\n\x7d",
        explanation := "This implementation uses bounded caches, tracks and cleans up event listeners, and properly manages intervals." }],
    bestPractices := ["Use WeakMap/WeakSet for caching object references",
      "Implement size limits and TTL for caches",
      "Track and clean up all event listeners",
      "Clear intervals and timeouts on component destruction",
      "Use weak references for event callbacks",
      "Implement proper cleanup methods",
      "Monitor memory usage in development"],
    commonPitfalls := ["Unbounded caches leading to memory growth",
      "Uncleaned event listeners in SPAs",
      "Forgotten setInterval cleanup",
      "Circular references in data structures",
      "Closure variables keeping references alive",
      "Not implementing proper cleanup methods"] }

/-- Rich registry entry `apiIntegrationPattern` (src/data/patterns/api-integration.ts). -/
def apiIntegrationPattern : Pattern :=
  { id := "api-integration",
    title := "API Integration",
    description := "A comprehensive debugging flow for API integrations, focusing on request/response cycles, error handling patterns, and timeout/retry strategies.",
    category := PatternCategory.INTEGRATION,
    diagram := "https://raw.githubusercontent.com/noah-ing/Debug-Pics/refs/heads/main/mermaid-diagram-2025-01-09-222949.svg",
    useCases := ["Complex API integrations",
      "Error handling strategies",
      "Request/response debugging",
      "Timeout and retry patterns"],
    implementation :=
      { typescript := "// Real-world example: Robust API client with retries, caching, and error handling\ninterface RequestConfig \x7b\n  baseURL: string;\n  timeout?: number;\n  retries?: number;\n  cacheTTL?: number;\n\x7d\n\ninterface APIResponse<T> \x7b\n  data: T;\n  status: number;\n  headers: Record<string, string>;\n\x7d\n\ninterface APIError extends Error \x7b\n  status?: number;\n  code?: string;\n  response?: any;\n\x7d\n\nclass APIClient \x7b\n  private baseURL: string;\n  private timeout: number;\n  private retries: number;\n  private cache: Map<string, \x7b data: any; timestamp: number \x7d>;\n  private cacheTTL: number;\n  private logger: Console;\n\n  constructor(config: RequestConfig) \x7b\n    this.baseURL = config.baseURL;\n    this.timeout = config.timeout || 5000;\n    this.retries = config.retries || 3;\n    this.cacheTTL = config.cacheTTL || 300000; // 5 minutes\n    this.cache = new Map();\n    this.logger = console;\n  \x7d\n\n  async get<T>(path: string, options: \x7b\n    useCache?: boolean;\n    headers?: Record<string, string>;\n  \x7d = \x7b\x7d): Promise<APIResponse<T>> \x7b\n    const cacheKey = \x60GET:$\x7bpath\x7d\x60;\n    \n    // Check cache if enabled\n    if (options.useCache) \x7b\n      const cached = this.getFromCache<T>(cacheKey);\n      if (cached) return cached;\n    \x7d\n\n    try \x7b\n      const response = await this.executeWithRetry<T>(\x27GET\x27, path, null, options.headers);\n      \n      // Cache successful responses\n      if (options.useCache) \x7b\n        this.setInCache(cacheKey, response);\n      \x7d\n\n      return response;\n    \x7d catch (error) \x7b\n      this.handleError(error, \x27GET\x27, path);\n      throw error;\n    \x7d\n  \x7d\n\n  async post<T>(\n    path: string,\n    data: any,\n    headers?: Record<string, string>\n  ): Promise<APIResponse<T>> \x7b\n    try \x7b\n      return await this.executeWithRetry<T>(\x27POST\x27, path, data, headers);\n    \x7d catch (error) \x7b\n      this.handleError(error, \x27POST\x27, path);\n      throw error;\n    \x7d\n  \x7d\n\n  private async executeWithRetry<T>(\n    method: string,\n    path: string,\n    data?: any,\n    headers?: Record<string, string>,\n    attempt: number = 1\n  ): Promise<APIResponse<T>> \x7b\n    try \x7b\n      const controller = new AbortController();\n      const timeoutId = setTimeout(() => controller.abort(), this.timeout);\n\n      const response = await fetch(\x60$\x7bthis.baseURL\x7d$\x7bpath\x7d\x60, \x7b\n        method,\n        headers: \x7b\n          \x27Content-Type\x27: \x27application/json\x27,\n          ...headers\n        \x7d,\n        body: data ? JSON.stringify(data) : undefined,\n        signal: controller.signal\n      \x7d);\n\n      clearTimeout(timeoutId);\n\n      if (!response.ok) \x7b\n        throw this.createAPIError(response);\n      \x7d\n\n      const responseData = await response.json();\n      \n      return \x7b\n        data: responseData,\n        status: response.status,\n        headers: Object.fromEntries(response.headers.entries())\n      \x7d;\n\n    \x7d catch (error) \x7b\n      if (error instanceof Error && error.name === \x27AbortError\x27) \x7b\n        throw new Error(\x60Request timeout after $\x7bthis.timeout\x7dms\x60);\n      \x7d\n\n      if (this.shouldRetry(error) && attempt < this.retries) \x7b\n        const backoffDelay = Math.min(1000 * Math.pow(2, attempt - 1), 10000);\n        \n        this.logger.warn(\x60Retrying $\x7bmethod\x7d $\x7bpath\x7d after $\x7bbackoffDelay\x7dms (attempt $\x7battempt\x7d)\x60);\n        \n        await new Promise(resolve => setTimeout(resolve, backoffDelay));\n        return this.executeWithRetry<T>(method, path, data, headers, attempt + 1);\n      \x7d\n\n      throw error;\n    \x7d\n  \x7d\n\n  private shouldRetry(error: any): boolean \x7b\n    // Retry on network errors and 5xx responses\n    if (error instanceof Error && error.name === \x27TypeError\x27) \x7b\n      return true;\n    \x7d\n    \n    return error.status ? error.status >= 500 : false;\n  \x7d\n\n  private createAPIError(response: Response): APIError \x7b\n    const error: APIError = new Error(\x60HTTP Error $\x7bresponse.status\x7d\x60);\n    error.status = response.status;\n    error.code = response.statusText;\n    return error;\n  \x7d\n\n  private getFromCache<T>(key: string): APIResponse<T> | null \x7b\n    const cached = this.cache.get(key);\n    \n    if (!cached) return null;\n\n    if (Date.now() - cached.timestamp > this.cacheTTL) \x7b\n      this.cache.delete(key);\n      return null;\n    \x7d\n\n    return cached.data;\n  \x7d\n\n  private setInCache(key: string, data: any): void \x7b\n    // Implement LRU if needed\n    if (this.cache.size >= 100) \x7b\n      const oldestKey = this.cache.keys().next().value;\n      this.cache.delete(oldestKey);\n    \x7d\n\n    this.cache.set(key, \x7b\n      data,\n      timestamp: Date.now()\n    \x7d);\n  \x7d\n\n  private handleError(error: any, method: string, path: string): void \x7b\n    this.logger.error(\x27API Request Failed\x27, \x7b\n      method,\n      path,\n      error: \x7b\n        message: error.message,\n        status: error.status,\n        code: error.code\n      \x7d\n    \x7d);\n  \x7d\n\x7d\n\n// Example usage with error handling and retries\nasync function fetchUserData(userId: string) \x7b\n  const api = new APIClient(\x7b\n    baseURL: \x27https://api.example.com\x27,\n    timeout: 5000,\n    retries: 3\n  \x7d);\n\n  try \x7b\n    // GET with caching\n    const user = await api.get(\x60/users/$\x7buserId\x7d\x60, \x7b useCache: true \x7d);\n    \n    // POST with error handling\n    const userPreferences = await api.post(\x60/users/$\x7buserId\x7d/preferences\x60, \x7b\n      theme: \x27dark\x27,\n      notifications: true\n    \x7d);\n\n    return \x7b\n      user: user.data,\n      preferences: userPreferences.data\n    \x7d;\n\n  \x7d catch (error) \x7b\n    if (error instanceof Error) \x7b\n      if (error.name === \x27AbortError\x27) \x7b\n        // Handle timeout\n        console.error(\x27Request timed out\x27);\n      \x7d else if ((error as APIError).status === 404) \x7b\n        // Handle not found\n        console.error(\x27User not found\x27);\n      \x7d else \x7b\n        // Handle other errors\n        console.error(\x27Failed to fetch user data:\x27, error.message);\n      \x7d\n    \x7d\n    throw error;\n  \x7d\n\x7d",
        python := "# Real-world example: Robust API client with retries, caching, and error handling\nfrom dataclasses import dataclass\nfrom typing import Optional, Dict, Any, TypeVar, Generic\nimport aiohttp\nimport asyncio\nimport logging\nfrom datetime import datetime, timedelta\nimport json\nfrom abc import ABC, abstractmethod\n\nT = TypeVar(\x27T\x27)\n\n@dataclass\nclass APIResponse(Generic[T]):\n    \"\"\"Typed API response wrapper\"\"\"\n    data: T\n    status: int\n    headers: Dict[str, str]\n\nclass APIError(Exception):\n    \"\"\"Custom API exception with detailed error information\"\"\"\n    def __init__(\n        self,\n        message: str,\n        status: Optional[int] = None,\n        code: Optional[str] = None,\n        response: Optional[Any] = None\n    ):\n        super().__init__(message)\n        self.status = status\n        self.code = code\n        self.response = response\n\nclass CacheStrategy(ABC):\n    \"\"\"Abstract base class for cache strategies\"\"\"\n    @abstractmethod\n    async def get(self, key: str) -> Optional[Any]:\n        pass\n\n    @abstractmethod\n    async def set(self, key: str, value: Any) -> None:\n        pass\n\nclass InMemoryCache(CacheStrategy):\n    \"\"\"Simple in-memory cache with TTL\"\"\"\n    def __init__(self, ttl_seconds: int = 300):\n        self._cache: Dict[str, tuple[Any, datetime]] = \x7b\x7d\n        self._ttl = timedelta(seconds=ttl_seconds)\n\n    async def get(self, key: str) -> Optional[Any]:\n        if key not in self._cache:\n            return None\n\n        value, timestamp = self._cache[key]\n        if datetime.now() - timestamp > self._ttl:\n            del self._cache[key]\n            return None\n\n        return value\n\n    async def set(self, key: str, value: Any) -> None:\n        # Simple LRU-like cleanup\n        if len(self._cache) >= 100:\n            oldest_key = min(\n                self._cache.keys(),\n                key=lambda k: self._cache[k][1]\n            )\n            del self._cache[oldest_key]\n\n        self._cache[key] = (value, datetime.now())\n\nclass APIClient:\n    \"\"\"Robust API client with retries, caching, and error handling\"\"\"\n    \n    def __init__(\n        self,\n        base_url: str,\n        timeout: float = 5.0,\n        max_retries: int = 3,\n        cache_strategy: Optional[CacheStrategy] = None\n    ):\n        self.base_url = base_url\n        self.timeout = timeout\n        self.max_retries = max_retries\n        self.cache = cache_strategy or InMemoryCache()\n        self.logger = logging.getLogger(__name__)\n        \n        # Session configuration\n        self.session: Optional[aiohttp.ClientSession] = None\n        self._closed = False\n\n    async def __aenter__(self) -> \x27APIClient\x27:\n        await self.ensure_session()\n        return self\n\n    async def __aexit__(self, exc_type, exc_val, exc_tb) -> None:\n        await self.close()\n\n    async def ensure_session(self) -> None:\n        \"\"\"Ensure aiohttp session is created\"\"\"\n        if self.session is None or self._closed:\n            timeout = aiohttp.ClientTimeout(total=self.timeout)\n            self.session = aiohttp.ClientSession(\n                timeout=timeout,\n                raise_for_status=True\n            )\n            self._closed = False\n\n    async def close(self) -> None:\n        \"\"\"Close the client session\"\"\"\n        if self.session and not self._closed:\n            await self.session.close()\n            self._closed = True\n\n    async def get(\n        self,\n        path: str,\n        *,\n        use_cache: bool = False,\n        headers: Optional[Dict[str, str]] = None\n    ) -> APIResponse:\n        \"\"\"Execute GET request with optional caching\"\"\"\n        cache_key = f\"GET:\x7bpath\x7d\"\n        \n        # Check cache if enabled\n        if use_cache:\n            cached = await self.cache.get(cache_key)\n            if cached:\n                return cached\n\n        try:\n            response = await self._execute_with_retry(\n                \x27GET\x27,\n                path,\n                headers=headers\n            )\n            \n            # Cache successful responses\n            if use_cache:\n                await self.cache.set(cache_key, response)\n                \n            return response\n\n        except Exception as e:\n            self._handle_error(e, \x27GET\x27, path)\n            raise\n\n    async def post(\n        self,\n        path: str,\n        data: Any,\n        headers: Optional[Dict[str, str]] = None\n    ) -> APIResponse:\n        \"\"\"Execute POST request\"\"\"\n        try:\n            return await self._execute_with_retry(\n                \x27POST\x27,\n                path,\n                data=data,\n                headers=headers\n            )\n        except Exception as e:\n            self._handle_error(e, \x27POST\x27, path)\n            raise\n\n    async def _execute_with_retry(\n        self,\n        method: str,\n        path: str,\n        *,\n        data: Any = None,\n        headers: Optional[Dict[str, str]] = None,\n        attempt: int = 1\n    ) -> APIResponse:\n        \"\"\"Execute request with retry logic\"\"\"\n        await self.ensure_session()\n        \n        try:\n            async with self.session.request(\n                method,\n                f\"\x7bself.base_url\x7d\x7bpath\x7d\",\n                json=data,\n                headers=headers\n            ) as response:\n                response_data = await response.json()\n                \n                return APIResponse(\n                    data=response_data,\n                    status=response.status,\n                    headers=dict(response.headers)\n                )\n\n        except asyncio.TimeoutError:\n            raise APIError(\n                f\"Request timeout after \x7bself.timeout\x7d seconds\"\n            )\n\n        except aiohttp.ClientError as e:\n            if self._should_retry(e) and attempt < self.max_retries:\n                backoff = min(1 * (2 ** (attempt - 1)), 10)\n                \n                self.logger.warning(\n                    f\"Retrying \x7bmethod\x7d \x7bpath\x7d \"\n                    f\"after \x7bbackoff\x7ds (attempt \x7battempt\x7d)\"\n                )\n                \n                await asyncio.sleep(backoff)\n                \n                return await self._execute_with_retry(\n                    method,\n                    path,\n                    data=data,\n                    headers=headers,\n                    attempt=attempt + 1\n                )\n                \n            raise self._create_api_error(e)\n\n    def _should_retry(self, error: Exception) -> bool:\n        \"\"\"Determine if request should be retried\"\"\"\n        if isinstance(error, aiohttp.ServerTimeoutError):\n            return True\n            \n        if isinstance(error, aiohttp.ClientResponseError):\n            return error.status >= 500\n            \n        return isinstance(error, (\n            aiohttp.ServerDisconnectedError,\n            aiohttp.ClientConnectorError\n        ))\n\n    def _create_api_error(self, error: Exception) -> APIError:\n        \"\"\"Create appropriate API error from exception\"\"\"\n        if isinstance(error, aiohttp.ClientResponseError):\n            return APIError(\n                str(error),\n                status=error.status,\n                code=str(error.code)\n            )\n            \n        return APIError(str(error))\n\n    def _handle_error(\n        self,\n        error: Exception,\n        method: str,\n        path: str\n    ) -> None:\n        \"\"\"Log error details\"\"\"\n        self.logger.error(\n            \"API Request Failed\",\n            extra=\x7b\n                \"method\": method,\n                \"path\": path,\n                \"error\": \x7b\n                    \"type\": type(error).__name__,\n                    \"message\": str(error),\n                    \"status\": getattr(error, \x27status\x27, None),\n                    \"code\": getattr(error, \x27code\x27, None)\n                \x7d\n            \x7d\n        )\n\n# Example usage with error handling and retries\nasync def fetch_user_data(user_id: str) -> Dict[str, Any]:\n    async with APIClient(\n        base_url=\"https://api.example.com\",\n        timeout=5.0,\n        max_retries=3\n    ) as api:\n        try:\n            # GET with caching\n            user = await api.get(\n                f\"/users/\x7buser_id\x7d\",\n                use_cache=True\n            )\n            \n            # POST with error handling\n            preferences = await api.post(\n                f\"/users/\x7buser_id\x7d/preferences\",\n                data=\x7b\n                    \"theme\": \"dark\",\n                    \"notifications\": True\n                \x7d\n            )\n\n            return \x7b\n                \"user\": user.data,\n                \"preferences\": preferences.data\n            \x7d\n\n        except APIError as e:\n            if e.status == 404:\n                logging.error(\"User not found\")\n            elif isinstance(e, asyncio.TimeoutError):\n                logging.error(\"Request timed out\")\n            else:\n                logging.error(\n                    f\"Failed to fetch user data: \x7be\x7d\",\n                    exc_info=True\n                )\n            raise\n\n# Usage in async context\nasync def main():\n    try:\n        user_data = await fetch_user_data(\"123\")\n        print(user_data)\n    except APIError as e:\n        print(f\"API Error: \x7be\x7d\")\n" },
    codeExamples := [
      { title := "Common API Integration Issues",
        language := Language.typescript,
        code := "// \u274c Common API integration issues\nasync function fetchUserData(userId: string) \x7b\n  // Issue 1: No error handling\n  const response = await fetch(\x60/api/users/$\x7buserId\x7d\x60);\n  const data = await response.json();\n  \n  // Issue 2: No timeout handling\n  const preferences = await fetch(\x60/api/users/$\x7buserId\x7d/preferences\x60);\n  \n  // Issue 3: No retry logic\n  if (!response.ok) \x7b\n    throw new Error(\x27Request failed\x27);\n  \x7d\n  \n  // Issue 4: No request cancellation\n  const longRequest = await fetch(\x27/api/long-operation\x27);\n  \n  return data;\n\x7d",
        explanation := "Common issues include missing error handling, no timeout handling, lack of retry logic, and no request cancellation." },
      { title := "Robust API Integration",
        language := Language.typescript,
        code := "// \u2705 Robust API integration\nasync function fetchUserData(userId: string) \x7b\n  const controller = new AbortController();\n  const timeout = setTimeout(() => controller.abort(), 5000);\n\n  try \x7b\n    // Parallel requests with timeout\n    const [userResponse, preferencesResponse] = await Promise.all([\n      fetch(\x60/api/users/$\x7buserId\x7d\x60, \x7b\n        signal: controller.signal,\n        headers: \x7b\n          \x27Content-Type\x27: \x27application/json\x27\n        \x7d\n      \x7d),\n      fetch(\x60/api/users/$\x7buserId\x7d/preferences\x60, \x7b\n        signal: controller.signal\n      \x7d)\n    ]);\n\n    // Validate responses\n    if (!userResponse.ok) \x7b\n      throw new Error(\x60User request failed: $\x7buserResponse.status\x7d\x60);\n    \x7d\n    if (!preferencesResponse.ok) \x7b\n      throw new Error(\x60Preferences request failed: $\x7bpreferencesResponse.status\x7d\x60);\n    \x7d\n\n    // Parse responses\n    const [userData, preferences] = await Promise.all([\n      userResponse.json(),\n      preferencesResponse.json()\n    ]);\n\n    return \x7b\n      user: userData,\n      preferences\n    \x7d;\n\n  \x7d catch (error) \x7b\n    if (error instanceof Error) \x7b\n      if (error.name === \x27AbortError\x27) \x7b\n        throw new Error(\x27Request timeout\x27);\n      \x7d\n      // Log error details\n      console.error(\x27API request failed:\x27, \x7b\n        userId,\n        error: error.message,\n        timestamp: new Date().toISOString()\n      \x7d);\n    \x7d\n    throw error;\n    \n  \x7d finally \x7b\n    clearTimeout(timeout);\n  \x7d\n\x7d",
        explanation := "This implementation includes timeout handling, parallel requests, proper error handling, and request cancellation." }],
    bestPractices := ["Implement proper error handling with specific error types",
      "Use timeouts for all requests",
      "Implement retry logic with exponential backoff",
      "Add request/response logging",
      "Use request cancellation",
      "Implement caching where appropriate",
      "Handle rate limiting and backoff"],
    commonPitfalls := ["Missing error handling",
      "No timeout implementation",
      "Lack of retry logic",
      "Poor logging practices",
      "Missing request cancellation",
      "Not handling rate limits",
      "Inadequate response validation"] }

/-- Rich registry entry `stateManagementPattern` (src/data/patterns/state-management.ts). -/
def stateManagementPattern : Pattern :=
  { id := "state-management",
    title := "State Management",
    description := "A visual approach to debugging state management issues, tracking component re-renders, state mutations, and cache invalidation patterns.",
    category := PatternCategory.STATE,
    diagram := "https://raw.githubusercontent.com/noah-ing/Debug-Pics/refs/heads/main/mermaid-diagram-2025-01-09-222959.svg",
    useCases := ["Complex state flows",
      "Component re-renders",
      "Cache invalidation",
      "State mutation tracking"],
    implementation :=
      { typescript := "// Real-world example: Type-safe state management with debugging and performance optimization\nimport \x7b createContext, useContext, useCallback, useRef, useEffect \x7d from \x27react\x27;\n\n// Type definitions for state store\ntype Listener<T> = (state: T) => void;\ntype Selector<T, R> = (state: T) => R;\ntype Action<T> = (state: T) => Partial<T>;\ntype Middleware<T> = (action: Action<T>, state: T) => Promise<void> | void;\n\ninterface StoreConfig<T> \x7b\n  initialState: T;\n  middleware?: Middleware<T>[];\n  persist?: boolean;\n  debug?: boolean;\n\x7d\n\nclass Store<T extends object> \x7b\n  private state: T;\n  private listeners: Set<Listener<T>>;\n  private middleware: Middleware<T>[];\n  private debug: boolean;\n  private persist: boolean;\n  private updateCount: number;\n  private lastUpdate: number;\n\n  constructor(config: StoreConfig<T>) \x7b\n    this.state = this.loadInitialState(config);\n    this.listeners = new Set();\n    this.middleware = config.middleware || [];\n    this.debug = config.debug || false;\n    this.persist = config.persist || false;\n    this.updateCount = 0;\n    this.lastUpdate = Date.now();\n  \x7d\n\n  private loadInitialState(config: StoreConfig<T>): T \x7b\n    if (config.persist && typeof window !== \x27undefined\x27) \x7b\n      const stored = localStorage.getItem(\x27app_state\x27);\n      if (stored) \x7b\n        try \x7b\n          return JSON.parse(stored);\n        \x7d catch (e) \x7b\n          console.error(\x27Failed to load persisted state:\x27, e);\n        \x7d\n      \x7d\n    \x7d\n    return config.initialState;\n  \x7d\n\n  getState(): T \x7b\n    return this.state;\n  \x7d\n\n  async dispatch(action: Action<T>): Promise<void> \x7b\n    const startTime = performance.now();\n    const prevState = \x7b ...this.state \x7d;\n    \n    try \x7b\n      // Run middleware before state update\n      for (const middleware of this.middleware) \x7b\n        await middleware(action, prevState);\n      \x7d\n\n      // Update state\n      const update = action(prevState);\n      const nextState = \x7b ...prevState, ...update \x7d;\n      \n      // Validate state changes\n      this.validateStateUpdate(prevState, nextState);\n      \n      this.state = nextState;\n      this.updateCount++;\n      this.lastUpdate = Date.now();\n\n      // Persist if enabled\n      if (this.persist) \x7b\n        this.persistState();\n      \x7d\n\n      // Notify listeners\n      this.notifyListeners();\n\n      // Debug logging\n      if (this.debug) \x7b\n        this.logStateUpdate(prevState, nextState, startTime);\n      \x7d\n\n    \x7d catch (error) \x7b\n      console.error(\x27State update failed:\x27, error);\n      throw error;\n    \x7d\n  \x7d\n\n  private validateStateUpdate(prev: T, next: T): void \x7b\n    // Detect accidental mutations\n    if (Object.keys(next).some(key => prev[key] === next[key] && typeof prev[key] === \x27object\x27)) \x7b\n      console.warn(\x27Possible state mutation detected. State updates should be immutable.\x27);\n    \x7d\n\n    // Check for undefined values\n    Object.entries(next).forEach(([key, value]) => \x7b\n      if (value === undefined) \x7b\n        console.warn(\x60State key \"$\x7bkey\x7d\" was set to undefined. This may cause issues.\x60);\n      \x7d\n    \x7d);\n  \x7d\n\n  private persistState(): void \x7b\n    try \x7b\n      localStorage.setItem(\x27app_state\x27, JSON.stringify(this.state));\n    \x7d catch (e) \x7b\n      console.error(\x27Failed to persist state:\x27, e);\n    \x7d\n  \x7d\n\n  private logStateUpdate(prev: T, next: T, startTime: number): void \x7b\n    const duration = performance.now() - startTime;\n    const changes = Object.keys(next).filter(key => prev[key] !== next[key]);\n    \n    console.group(\x27State Update\x27);\n    console.log(\x27Previous:\x27, prev);\n    console.log(\x27Next:\x27, next);\n    console.log(\x27Changed keys:\x27, changes);\n    console.log(\x60Update took $\x7bduration.toFixed(2)\x7dms\x60);\n    console.log(\x60Total updates: $\x7bthis.updateCount\x7d\x60);\n    console.groupEnd();\n  \x7d\n\n  subscribe(listener: Listener<T>): () => void \x7b\n    this.listeners.add(listener);\n    return () => this.listeners.delete(listener);\n  \x7d\n\n  private notifyListeners(): void \x7b\n    for (const listener of this.listeners) \x7b\n      listener(this.state);\n    \x7d\n  \x7d\n\n  // Debug utilities\n  getDebugInfo() \x7b\n    return \x7b\n      updateCount: this.updateCount,\n      lastUpdate: new Date(this.lastUpdate).toISOString(),\n      listenerCount: this.listeners.size,\n      stateSize: JSON.stringify(this.state).length,\n    \x7d;\n  \x7d\n\x7d\n\n// React integration\nconst StoreContext = createContext<Store<any> | null>(null);\n\nexport function useStore<T extends object, R>(\n  selector: Selector<T, R>,\n  equalityFn: (a: R, b: R) => boolean = Object.is\n): R \x7b\n  const store = useContext(StoreContext);\n  if (!store) throw new Error(\x27Store not found in context\x27);\n\n  const [state, setState] = useState(selector(store.getState()));\n  const prevValue = useRef(state);\n\n  useEffect(() => \x7b\n    return store.subscribe((newState) => \x7b\n      const newValue = selector(newState);\n      if (!equalityFn(prevValue.current, newValue)) \x7b\n        prevValue.current = newValue;\n        setState(newValue);\n      \x7d\n    \x7d);\n  \x7d, [store, selector, equalityFn]);\n\n  return state;\n\x7d\n\n// Example usage with TypeScript\ninterface AppState \x7b\n  user: \x7b\n    id: string;\n    name: string;\n    preferences: \x7b\n      theme: \x27light\x27 | \x27dark\x27;\n      notifications: boolean;\n    \x7d;\n  \x7d | null;\n  todos: Array<\x7b\n    id: string;\n    text: string;\n    completed: boolean;\n  \x7d>;\n  ui: \x7b\n    sidebarOpen: boolean;\n    activeModal: string | null;\n  \x7d;\n\x7d\n\n// Middleware example: Logger\nconst loggerMiddleware: Middleware<AppState> = async (action, state) => \x7b\n  console.group(\x27Action\x27);\n  console.log(\x27Previous State:\x27, state);\n  console.log(\x27Action:\x27, action.name);\n  console.groupEnd();\n\x7d;\n\n// Middleware example: Analytics\nconst analyticsMiddleware: Middleware<AppState> = async (action, state) => \x7b\n  if (action.name === \x27updateUser\x27) \x7b\n    analytics.track(\x27user_updated\x27, \x7b\n      userId: state.user?.id,\n      timestamp: new Date().toISOString()\n    \x7d);\n  \x7d\n\x7d;\n\n// Create store instance\nconst store = new Store<AppState>(\x7b\n  initialState: \x7b\n    user: null,\n    todos: [],\n    ui: \x7b\n      sidebarOpen: false,\n      activeModal: null\n    \x7d\n  \x7d,\n  middleware: [loggerMiddleware, analyticsMiddleware],\n  persist: true,\n  debug: process.env.NODE_ENV === \x27development\x27\n\x7d);\n\n// Component example\nfunction UserProfile() \x7b\n  const user = useStore((state: AppState) => state.user);\n  const updateUser = useCallback((name: string) => \x7b\n    store.dispatch((state) => (\x7b\n      user: state.user ? \x7b ...state.user, name \x7d : null\n    \x7d));\n  \x7d, []);\n\n  if (!user) return <div>Please log in</div>;\n\n  return (\n    <div>\n      <h1>\x7buser.name\x7d</h1>\n      <button onClick=\x7b() => updateUser(\x27New Name\x27)\x7d>\n        Update Name\n      </button>\n    </div>\n  );\n\x7d",
        python := "# Real-world example: Type-safe state management with debugging and performance optimization\nfrom typing import TypeVar, Generic, Callable, Dict, List, Optional, Any\nfrom dataclasses import dataclass\nfrom datetime import datetime\nimport json\nimport asyncio\nimport logging\nfrom abc import ABC, abstractmethod\n\nT = TypeVar(\x27T\x27)\nState = TypeVar(\x27State\x27, bound=Dict[str, Any])\nSelector = Callable[[State], Any]\nAction = Callable[[State], Dict[str, Any]]\nMiddleware = Callable[[Action, State], None]\n\nclass StateError(Exception):\n    \"\"\"Base exception for state management errors\"\"\"\n    pass\n\nclass StateMutationError(StateError):\n    \"\"\"Raised when illegal state mutation is detected\"\"\"\n    pass\n\n@dataclass\nclass StoreConfig(Generic[State]):\n    \"\"\"Configuration for state store\"\"\"\n    initial_state: State\n    middleware: Optional[List[Middleware]] = None\n    persist: bool = False\n    debug: bool = False\n\nclass StateObserver(ABC):\n    \"\"\"Abstract base class for state observers\"\"\"\n    @abstractmethod\n    async def on_state_change(self, state: State) -> None:\n        pass\n\nclass Store(Generic[State]):\n    \"\"\"Type-safe state management store with debugging capabilities\"\"\"\n    \n    def __init__(self, config: StoreConfig[State]):\n        self._state = self._load_initial_state(config)\n        self._observers: List[StateObserver] = []\n        self._middleware = config.middleware or []\n        self._debug = config.debug\n        self._persist = config.persist\n        self._update_count = 0\n        self._last_update = datetime.now()\n        self._logger = logging.getLogger(__name__)\n\n    def _load_initial_state(self, config: StoreConfig[State]) -> State:\n        \"\"\"Load initial state with persistence support\"\"\"\n        if config.persist:\n            try:\n                with open(\x27app_state.json\x27, \x27r\x27) as f:\n                    return json.load(f)\n            except (FileNotFoundError, json.JSONDecodeError) as e:\n                self._logger.warning(f\"Failed to load persisted state: \x7be\x7d\")\n        \n        return config.initial_state\n\n    def get_state(self) -> State:\n        \"\"\"Get current state\"\"\"\n        return self._state.copy()\n\n    async def dispatch(self, action: Action) -> None:\n        \"\"\"Dispatch an action to update state\"\"\"\n        start_time = datetime.now()\n        prev_state = self._state.copy()\n\n        try:\n            # Run middleware\n            for middleware in self._middleware:\n                await asyncio.create_task(\n                    self._run_middleware(middleware, action, prev_state)\n                )\n\n            # Update state\n            update = action(prev_state)\n            next_state = \x7b**prev_state, **update\x7d\n\n            # Validate state changes\n            self._validate_state_update(prev_state, next_state)\n\n            self._state = next_state\n            self._update_count += 1\n            self._last_update = datetime.now()\n\n            # Persist if enabled\n            if self._persist:\n                await self._persist_state()\n\n            # Notify observers\n            await self._notify_observers()\n\n            # Debug logging\n            if self._debug:\n                self._log_state_update(prev_state, next_state, start_time)\n\n        except Exception as e:\n            self._logger.error(\"State update failed\", exc_info=True)\n            raise StateError(f\"State update failed: \x7bstr(e)\x7d\") from e\n\n    async def _run_middleware(\n        self,\n        middleware: Middleware,\n        action: Action,\n        state: State\n    ) -> None:\n        \"\"\"Run middleware with error handling\"\"\"\n        try:\n            await asyncio.create_task(middleware(action, state))\n        except Exception as e:\n            self._logger.error(\n                f\"Middleware \x7bmiddleware.__name__\x7d failed\",\n                exc_info=True\n            )\n            raise\n\n    def _validate_state_update(\n        self,\n        prev: State,\n        next_state: State\n    ) -> None:\n        \"\"\"Validate state updates for common issues\"\"\"\n        # Check for direct mutations\n        for key in next_state:\n            if (\n                key in prev and\n                isinstance(prev[key], dict) and\n                prev[key] is next_state[key]\n            ):\n                raise StateMutationError(\n                    f\"Direct state mutation detected for key: \x7bkey\x7d\"\n                )\n\n        # Check for undefined values\n        for key, value in next_state.items():\n            if value is None and key in prev and prev[key] is not None:\n                self._logger.warning(\n                    f\"State key \x27\x7bkey\x7d\x27 was set to None. \"\n                    \"This may cause issues.\"\n                )\n\n    async def _persist_state(self) -> None:\n        \"\"\"Persist state to storage\"\"\"\n        try:\n            with open(\x27app_state.json\x27, \x27w\x27) as f:\n                json.dump(self._state, f)\n        except Exception as e:\n            self._logger.error(f\"Failed to persist state: \x7be\x7d\")\n\n    def _log_state_update(\n        self,\n        prev: State,\n        next_state: State,\n        start_time: datetime\n    ) -> None:\n        \"\"\"Log detailed state update information\"\"\"\n        duration = (datetime.now() - start_time).total_seconds() * 1000\n        changes = [\n            key for key in next_state\n            if key in prev and prev[key] != next_state[key]\n        ]\n\n        self._logger.debug(\n            \"State Update\",\n            extra=\x7b\n                \"previous_state\": prev,\n                \"next_state\": next_state,\n                \"changed_keys\": changes,\n                \"duration_ms\": duration,\n                \"update_count\": self._update_count\n            \x7d\n        )\n\n    def add_observer(self, observer: StateObserver) -> None:\n        \"\"\"Add state observer\"\"\"\n        self._observers.append(observer)\n\n    def remove_observer(self, observer: StateObserver) -> None:\n        \"\"\"Remove state observer\"\"\"\n        self._observers.remove(observer)\n\n    async def _notify_observers(self) -> None:\n        \"\"\"Notify all observers of state change\"\"\"\n        tasks = [\n            asyncio.create_task(observer.on_state_change(self._state))\n            for observer in self._observers\n        ]\n        await asyncio.gather(*tasks)\n\n    def get_debug_info(self) -> Dict[str, Any]:\n        \"\"\"Get debug information about store\"\"\"\n        return \x7b\n            \"update_count\": self._update_count,\n            \"last_update\": self._last_update.isoformat(),\n            \"observer_count\": len(self._observers),\n            \"state_size\": len(json.dumps(self._state))\n        \x7d\n\n# Example usage\nfrom dataclasses import dataclass\nfrom typing import Optional, List\nfrom enum import Enum\n\nclass Theme(Enum):\n    LIGHT = \"light\"\n    DARK = \"dark\"\n\n@dataclass\nclass UserPreferences:\n    theme: Theme\n    notifications: bool\n\n@dataclass\nclass User:\n    id: str\n    name: str\n    preferences: UserPreferences\n\n@dataclass\nclass Todo:\n    id: str\n    text: str\n    completed: bool\n\n@dataclass\nclass UIState:\n    sidebar_open: bool\n    active_modal: Optional[str]\n\nclass AppState(TypedDict):\n    user: Optional[User]\n    todos: List[Todo]\n    ui: UIState\n\n# Middleware example: Logger\nasync def logger_middleware(action: Action, state: AppState) -> None:\n    logging.debug(\n        \"Action dispatched\",\n        extra=\x7b\n            \"action_name\": action.__name__,\n            \"previous_state\": state\n        \x7d\n    )\n\n# Middleware example: Analytics\nasync def analytics_middleware(action: Action, state: AppState) -> None:\n    if action.__name__ == \"update_user\":\n        # Send to analytics service\n        analytics.track(\n            \"user_updated\",\n            \x7b\n                \"user_id\": state.get(\"user\", \x7b\x7d).get(\"id\"),\n                \"timestamp\": datetime.now().isoformat()\n            \x7d\n        )\n\n# Create store instance\nstore = Store(StoreConfig(\n    initial_state=\x7b\n        \"user\": None,\n        \"todos\": [],\n        \"ui\": \x7b\n            \"sidebar_open\": False,\n            \"active_modal\": None\n        \x7d\n    \x7d,\n    middleware=[logger_middleware, analytics_middleware],\n    persist=True,\n    debug=True\n))\n\n# Example component observer\nclass UserProfileObserver(StateObserver):\n    async def on_state_change(self, state: AppState) -> None:\n        user = state.get(\"user\")\n        if user:\n            # Update UI with user data\n            await self.render_user_profile(user)\n\n    async def render_user_profile(self, user: User) -> None:\n        # Render user profile\n        pass\n\n# Example usage\nasync def update_user_name(name: str) -> None:\n    async def update_action(state: AppState) -> Dict[str, Any]:\n        if not state[\"user\"]:\n            raise StateError(\"No user logged in\")\n            \n        return \x7b\n            \"user\": \x7b\n                **state[\"user\"],\n                \"name\": name\n            \x7d\n        \x7d\n\n    await store.dispatch(update_action)\n\n# Error handling example\nasync def main():\n    try:\n        await update_user_name(\"New Name\")\n    except StateError as e:\n        logging.error(f\"Failed to update user: \x7be\x7d\")\n    except Exception as e:\n        logging.error(\"Unexpected error\", exc_info=True)" },
    codeExamples := [
      { title := "Common State Management Issues",
        language := Language.typescript,
        code := "// \u274c Common state management issues\nclass Component \x7b\n  // Issue 1: Direct state mutation\n  updateUser(name: string) \x7b\n    this.state.user.name = name;\n  \x7d\n  \n  // Issue 2: No state immutability\n  addTodo(todo: Todo) \x7b\n    this.state.todos.push(todo);\n  \x7d\n  \n  // Issue 3: Inconsistent updates\n  async fetchUser() \x7b\n    const user = await api.getUser();\n    this.state.user = user;\n    // Preferences might be out of sync\n  \x7d\n  \n  // Issue 4: No cleanup\n  componentDidMount() \x7b\n    window.addEventListener(\x27resize\x27, this.handleResize);\n  \x7d\n\x7d",
        explanation := "Common issues include direct state mutations, lack of immutability, inconsistent updates, and missing cleanup." },
      { title := "Robust State Management",
        language := Language.typescript,
        code := "// \u2705 Robust state management\nclass Component \x7b\n  // Immutable state updates\n  updateUser(name: string) \x7b\n    this.setState(state => (\x7b\n      user: state.user\n        ? \x7b ...state.user, name \x7d\n        : null\n    \x7d));\n  \x7d\n  \n  // Batch related updates\n  async fetchUserWithPreferences() \x7b\n    const [user, preferences] = await Promise.all([\n      api.getUser(),\n      api.getUserPreferences()\n    ]);\n    \n    this.setState(\x7b\n      user: \x7b ...user, preferences \x7d\n    \x7d);\n  \x7d\n  \n  // Proper cleanup\n  componentDidMount() \x7b\n    const handler = this.handleResize.bind(this);\n    window.addEventListener(\x27resize\x27, handler);\n    \n    return () => \x7b\n      window.removeEventListener(\x27resize\x27, handler);\n    \x7d;\n  \x7d\n  \n  // Optimized re-renders\n  shouldComponentUpdate(nextProps, nextState) \x7b\n    return !isEqual(this.state, nextState) ||\n           !isEqual(this.props, nextProps);\n  \x7d\n\x7d",
        explanation := "This implementation uses immutable updates, batches related changes, includes proper cleanup, and optimizes re-renders." }],
    bestPractices := ["Use immutable state updates",
      "Implement proper type safety",
      "Batch related state changes",
      "Add debugging capabilities",
      "Include state persistence",
      "Optimize component re-renders",
      "Handle cleanup properly"],
    commonPitfalls := ["Direct state mutations",
      "Missing type safety",
      "Inconsistent state updates",
      "No performance optimization",
      "Memory leaks from missing cleanup",
      "Poor error handling",
      "Lack of debugging tools"] }

/-- Rich registry entry `performanceBottleneckPattern` (src/data/patterns/performance-bottleneck.ts). -/
def performanceBottleneckPattern : Pattern :=
  { id := "performance-bottleneck",
    title := "Performance Bottleneck",
    description := "A systematic method for identifying and resolving performance bottlenecks through waterfall diagrams, load time analysis, and resource optimization.",
    category := PatternCategory.PERFORMANCE,
    diagram := "https://raw.githubusercontent.com/noah-ing/Debug-Pics/refs/heads/main/mermaid-diagram-2025-01-09-223020.svg",
    useCases := ["Load time optimization",
      "Resource utilization",
      "Performance monitoring",
      "Bottleneck identification"],
    implementation :=
      { typescript := "// Real-world example: Performance monitoring and optimization toolkit\ninterface PerformanceMetrics \x7b\n  fps: number;\n  memory: \x7b\n    used: number;\n    total: number;\n  \x7d;\n  timing: \x7b\n    [key: string]: number;\n  \x7d;\n  resources: Array<\x7b\n    name: string;\n    size: number;\n    loadTime: number;\n  \x7d>;\n\x7d\n\ninterface ProfilerOptions \x7b\n  sampleInterval?: number;\n  maxDataPoints?: number;\n  enableMemoryProfiling?: boolean;\n  logLevel?: \x27debug\x27 | \x27info\x27 | \x27warn\x27 | \x27error\x27;\n\x7d\n\nclass PerformanceProfiler \x7b\n  private metrics: PerformanceMetrics[];\n  private sampleInterval: number;\n  private maxDataPoints: number;\n  private isRunning: boolean;\n  private intervalId?: number;\n  private marks: Map<string, number>;\n  private resourceObserver?: PerformanceObserver;\n  private logger: Console;\n\n  constructor(options: ProfilerOptions = \x7b\x7d) \x7b\n    this.metrics = [];\n    this.sampleInterval = options.sampleInterval || 1000;\n    this.maxDataPoints = options.maxDataPoints || 100;\n    this.isRunning = false;\n    this.marks = new Map();\n    this.logger = console;\n\n    // Initialize performance observers\n    this.setupObservers();\n  \x7d\n\n  private setupObservers(): void \x7b\n    // Resource timing observer\n    try \x7b\n      this.resourceObserver = new PerformanceObserver((list) => \x7b\n        list.getEntries().forEach(entry => \x7b\n          if (entry.entryType === \x27resource\x27) \x7b\n            this.logResourceTiming(entry as PerformanceResourceTiming);\n          \x7d\n        \x7d);\n      \x7d);\n\n      this.resourceObserver.observe(\x7b\n        entryTypes: [\x27resource\x27]\n      \x7d);\n\n    \x7d catch (error) \x7b\n      this.logger.warn(\x27Resource timing API not supported:\x27, error);\n    \x7d\n  \x7d\n\n  start(): void \x7b\n    if (this.isRunning) return;\n    \n    this.isRunning = true;\n    this.collectMetrics();\n    \n    this.intervalId = window.setInterval(\n      () => this.collectMetrics(),\n      this.sampleInterval\n    );\n  \x7d\n\n  stop(): void \x7b\n    if (!this.isRunning) return;\n    \n    this.isRunning = false;\n    if (this.intervalId) \x7b\n      clearInterval(this.intervalId);\n    \x7d\n  \x7d\n\n  mark(name: string): void \x7b\n    this.marks.set(name, performance.now());\n  \x7d\n\n  measure(name: string, startMark: string): number \x7b\n    const start = this.marks.get(startMark);\n    if (!start) \x7b\n      throw new Error(\x60Start mark \"$\x7bstartMark\x7d\" not found\x60);\n    \x7d\n\n    const duration = performance.now() - start;\n    this.logger.debug(\x60Measurement \"$\x7bname\x7d\": $\x7bduration.toFixed(2)\x7dms\x60);\n    return duration;\n  \x7d\n\n  private async collectMetrics(): Promise<void> \x7b\n    try \x7b\n      const metrics: PerformanceMetrics = \x7b\n        fps: await this.measureFPS(),\n        memory: this.getMemoryUsage(),\n        timing: this.getPageTiming(),\n        resources: this.getResourceMetrics()\n      \x7d;\n\n      this.metrics.push(metrics);\n\n      // Maintain max data points\n      if (this.metrics.length > this.maxDataPoints) \x7b\n        this.metrics.shift();\n      \x7d\n\n      this.analyzeMetrics(metrics);\n\n    \x7d catch (error) \x7b\n      this.logger.error(\x27Failed to collect metrics:\x27, error);\n    \x7d\n  \x7d\n\n  private async measureFPS(): Promise<number> \x7b\n    return new Promise(resolve => \x7b\n      requestAnimationFrame((t1) => \x7b\n        requestAnimationFrame((t2) => \x7b\n          resolve(1000 / (t2 - t1));\n        \x7d);\n      \x7d);\n    \x7d);\n  \x7d\n\n  private getMemoryUsage(): \x7b used: number; total: number \x7d \x7b\n    // Use performance.memory if available (Chrome only)\n    const memory = (performance as any).memory;\n    if (memory) \x7b\n      return \x7b\n        used: memory.usedJSHeapSize,\n        total: memory.totalJSHeapSize\n      \x7d;\n    \x7d\n\n    // Fallback to rough estimation\n    return \x7b\n      used: 0,\n      total: 0\n    \x7d;\n  \x7d\n\n  private getPageTiming(): \x7b [key: string]: number \x7d \x7b\n    const timing = performance.timing;\n    return \x7b\n      loadTime: timing.loadEventEnd - timing.navigationStart,\n      domReady: timing.domContentLoadedEventEnd - timing.navigationStart,\n      firstPaint: this.getFirstPaint(),\n      ttfb: timing.responseStart - timing.navigationStart\n    \x7d;\n  \x7d\n\n  private getFirstPaint(): number \x7b\n    const paint = performance.getEntriesByType(\x27paint\x27)\n      .find(entry => entry.name === \x27first-paint\x27);\n    \n    return paint ? paint.startTime : 0;\n  \x7d\n\n  private getResourceMetrics(): Array<\x7b\n    name: string;\n    size: number;\n    loadTime: number;\n  \x7d> \x7b\n    return performance.getEntriesByType(\x27resource\x27)\n      .map(entry => (\x7b\n        name: entry.name,\n        size: (entry as PerformanceResourceTiming).encodedBodySize || 0,\n        loadTime: entry.duration\n      \x7d));\n  \x7d\n\n  private logResourceTiming(entry: PerformanceResourceTiming): void \x7b\n    const timing = \x7b\n      name: entry.name,\n      type: entry.initiatorType,\n      size: entry.encodedBodySize,\n      duration: entry.duration,\n      // Network timing\n      dns: entry.domainLookupEnd - entry.domainLookupStart,\n      tcp: entry.connectEnd - entry.connectStart,\n      ttfb: entry.responseStart - entry.requestStart,\n      download: entry.responseEnd - entry.responseStart\n    \x7d;\n\n    this.logger.debug(\x27Resource Timing:\x27, timing);\n  \x7d\n\n  private analyzeMetrics(metrics: PerformanceMetrics): void \x7b\n    // FPS analysis\n    if (metrics.fps < 30) \x7b\n      this.logger.warn(\x27Low FPS detected:\x27, \x7b\n        current: metrics.fps,\n        threshold: 30\n      \x7d);\n    \x7d\n\n    // Memory analysis\n    const memoryUsage = (metrics.memory.used / metrics.memory.total) * 100;\n    if (memoryUsage > 80) \x7b\n      this.logger.warn(\x27High memory usage:\x27, \x7b\n        usage: \x60$\x7bmemoryUsage.toFixed(1)\x7d%\x60,\n        threshold: \x2780%\x27\n      \x7d);\n    \x7d\n\n    // Load time analysis\n    if (metrics.timing.loadTime > 3000) \x7b\n      this.logger.warn(\x27Slow page load:\x27, \x7b\n        loadTime: \x60$\x7bmetrics.timing.loadTime\x7dms\x60,\n        threshold: \x273000ms\x27\n      \x7d);\n    \x7d\n\n    // Resource analysis\n    const largeResources = metrics.resources\n      .filter(r => r.size > 1000000)\n      .map(r => (\x7b\n        name: r.name,\n        size: \x60$\x7b(r.size / 1000000).toFixed(1)\x7dMB\x60\n      \x7d));\n\n    if (largeResources.length > 0) \x7b\n      this.logger.warn(\x27Large resources detected:\x27, largeResources);\n    \x7d\n  \x7d\n\n  getMetricsSummary(): \x7b\n    averageFPS: number;\n    peakMemory: number;\n    slowestResources: Array<\x7b name: string; loadTime: number \x7d>;\n  \x7d \x7b\n    const averageFPS = this.metrics.reduce(\n      (sum, m) => sum + m.fps,\n      0\n    ) / this.metrics.length;\n\n    const peakMemory = Math.max(\n      ...this.metrics.map(m => m.memory.used)\n    );\n\n    const allResources = this.metrics\n      .flatMap(m => m.resources)\n      .sort((a, b) => b.loadTime - a.loadTime)\n      .slice(0, 5);\n\n    return \x7b\n      averageFPS,\n      peakMemory,\n      slowestResources: allResources\n    \x7d;\n  \x7d\n\n  generateReport(): string \x7b\n    const summary = this.getMetricsSummary();\n    \n    return \x60Performance Report\n----------------\nAverage FPS: $\x7bsummary.averageFPS.toFixed(1)\x7d\nPeak Memory: $\x7b(summary.peakMemory / 1000000).toFixed(1)\x7dMB\nSlowest Resources:\n$\x7bsummary.slowestResources\n  .map(r => \x60- $\x7br.name\x7d: $\x7br.loadTime.toFixed(0)\x7dms\x60)\n  .join(\x27\\n\x27)\n\x7d\x60;\n  \x7d\n\x7d\n\n// Example usage: Performance optimization for image loading\nclass ImageOptimizer \x7b\n  private observer: IntersectionObserver;\n  private profiler: PerformanceProfiler;\n\n  constructor() \x7b\n    this.profiler = new PerformanceProfiler();\n    \n    // Setup intersection observer for lazy loading\n    this.observer = new IntersectionObserver(\n      (entries) => this.handleIntersection(entries),\n      \x7b\n        rootMargin: \x2750px\x27,\n        threshold: 0.1\n      \x7d\n    );\n  \x7d\n\n  optimize(imageElement: HTMLImageElement): void \x7b\n    // Start performance monitoring\n    this.profiler.mark(\x60image_start_$\x7bimageElement.src\x7d\x60);\n\n    // Add lazy loading\n    imageElement.loading = \x27lazy\x27;\n\n    // Observe for viewport entry\n    this.observer.observe(imageElement);\n\n    // Add srcset for responsive images\n    this.addResponsiveSources(imageElement);\n  \x7d\n\n  private handleIntersection(entries: IntersectionObserverEntry[]): void \x7b\n    entries.forEach(entry => \x7b\n      if (entry.isIntersecting) \x7b\n        const img = entry.target as HTMLImageElement;\n        \n        // Load image\n        img.src = img.dataset.src || img.src;\n        \n        // Measure load performance\n        img.onload = () => \x7b\n          this.profiler.measure(\n            \x60image_load_$\x7bimg.src\x7d\x60,\n            \x60image_start_$\x7bimg.src\x7d\x60\n          );\n        \x7d;\n\n        // Stop observing\n        this.observer.unobserve(img);\n      \x7d\n    \x7d);\n  \x7d\n\n  private addResponsiveSources(img: HTMLImageElement): void \x7b\n    // Generate srcset for different viewport sizes\n    const sizes = [320, 640, 1280, 1920];\n    const srcset = sizes\n      .map(size => \x60$\x7bthis.getOptimizedUrl(img.src, size)\x7d $\x7bsize\x7dw\x60)\n      .join(\x27,\x27);\n\n    img.srcset = srcset;\n    img.sizes = \x27(max-width: 320px) 320px, (max-width: 640px) 640px, 1280px\x27;\n  \x7d\n\n  private getOptimizedUrl(url: string, width: number): string \x7b\n    // Add image optimization service parameters\n    return \x60$\x7burl\x7d?width=$\x7bwidth\x7d&quality=80\x60;\n  \x7d\n\x7d\n\n// Example usage\nconst profiler = new PerformanceProfiler(\x7b\n  sampleInterval: 1000,\n  maxDataPoints: 100,\n  enableMemoryProfiling: true,\n  logLevel: \x27warn\x27\n\x7d);\n\n// Start monitoring\nprofiler.start();\n\n// Optimize images\nconst imageOptimizer = new ImageOptimizer();\ndocument.querySelectorAll(\x27img\x27).forEach(img => \x7b\n  imageOptimizer.optimize(img);\n\x7d);\n\n// Generate report after page load\nwindow.addEventListener(\x27load\x27, () => \x7b\n  const report = profiler.generateReport();\n  console.log(report);\n\x7d);",
        python := "# Real-world example: Performance monitoring and optimization toolkit\nfrom dataclasses import dataclass\nfrom typing import Dict, List, Optional, Union\nimport time\nimport asyncio\nimport logging\nimport psutil\nimport tracemalloc\nfrom datetime import datetime\nfrom functools import wraps\nfrom contextlib import contextmanager\n\n@dataclass\nclass ResourceMetrics:\n    \"\"\"Resource usage metrics\"\"\"\n    name: str\n    size: int\n    load_time: float\n\n@dataclass\nclass PerformanceMetrics:\n    \"\"\"Performance metrics container\"\"\"\n    cpu_usage: float\n    memory_usage: Dict[str, int]\n    timing: Dict[str, float]\n    resources: List[ResourceMetrics]\n    timestamp: datetime\n\nclass PerformanceProfiler:\n    \"\"\"Performance profiling and monitoring toolkit\"\"\"\n    \n    def __init__(\n        self,\n        sample_interval: float = 1.0,\n        max_data_points: int = 100,\n        enable_memory_profiling: bool = True,\n        log_level: str = \x27WARNING\x27\n    ):\n        self.metrics: List[PerformanceMetrics] = []\n        self.sample_interval = sample_interval\n        self.max_data_points = max_data_points\n        self.is_running = False\n        self.marks: Dict[str, float] = \x7b\x7d\n        self.enable_memory_profiling = enable_memory_profiling\n        \n        # Setup logging\n        self.logger = logging.getLogger(__name__)\n        self.logger.setLevel(log_level)\n        \n        # Initialize tracemalloc if memory profiling is enabled\n        if enable_memory_profiling:\n            tracemalloc.start()\n\n    async def start(self) -> None:\n        \"\"\"Start performance monitoring\"\"\"\n        if self.is_running:\n            return\n\n        self.is_running = True\n        await self.collect_metrics()\n        \n        while self.is_running:\n            await asyncio.sleep(self.sample_interval)\n            await self.collect_metrics()\n\n    def stop(self) -> None:\n        \"\"\"Stop performance monitoring\"\"\"\n        self.is_running = False\n        if self.enable_memory_profiling:\n            tracemalloc.stop()\n\n    def mark(self, name: str) -> None:\n        \"\"\"Set a timing mark\"\"\"\n        self.marks[name] = time.perf_counter()\n\n    def measure(self, name: str, start_mark: str) -> float:\n        \"\"\"Measure time since a mark\"\"\"\n        if start_mark not in self.marks:\n            raise KeyError(f\x27Start mark \"\x7bstart_mark\x7d\" not found\x27)\n\n        duration = time.perf_counter() - self.marks[start_mark]\n        self.logger.debug(\n            f\x27Measurement \"\x7bname\x7d\": \x7bduration:.2f\x7ds\x27\n        )\n        return duration\n\n    async def collect_metrics(self) -> None:\n        \"\"\"Collect current performance metrics\"\"\"\n        try:\n            metrics = PerformanceMetrics(\n                cpu_usage=psutil.cpu_percent(),\n                memory_usage=self.get_memory_usage(),\n                timing=self.get_timing_metrics(),\n                resources=self.get_resource_metrics(),\n                timestamp=datetime.now()\n            )\n\n            self.metrics.append(metrics)\n\n            # Maintain max data points\n            if len(self.metrics) > self.max_data_points:\n                self.metrics.pop(0)\n\n            self.analyze_metrics(metrics)\n\n        except Exception as e:\n            self.logger.error(\n                f\x27Failed to collect metrics: \x7be\x7d\x27,\n                exc_info=True\n            )\n\n    def get_memory_usage(self) -> Dict[str, int]:\n        \"\"\"Get current memory usage statistics\"\"\"\n        process = psutil.Process()\n        memory_info = process.memory_info()\n\n        usage = \x7b\n            \x27rss\x27: memory_info.rss,\n            \x27vms\x27: memory_info.vms\n        \x7d\n\n        if self.enable_memory_profiling:\n            current, peak = tracemalloc.get_traced_memory()\n            usage.update(\x7b\n                \x27traced_current\x27: current,\n                \x27traced_peak\x27: peak\n            \x7d)\n\n        return usage\n\n    def get_timing_metrics(self) -> Dict[str, float]:\n        \"\"\"Get timing-related metrics\"\"\"\n        return \x7b\n            \x27uptime\x27: time.time() - psutil.boot_time(),\n            \x27process_time\x27: time.process_time()\n        \x7d\n\n    def get_resource_metrics(self) -> List[ResourceMetrics]:\n        \"\"\"Get resource usage metrics\"\"\"\n        resources = []\n        process = psutil.Process()\n\n        # Open files\n        for file in process.open_files():\n            resources.append(\n                ResourceMetrics(\n                    name=file.path,\n                    size=file.size if hasattr(file, \x27size\x27) else 0,\n                    load_time=0  # Not available for files\n                )\n            )\n\n        return resources\n\n    def analyze_metrics(self, metrics: PerformanceMetrics) -> None:\n        \"\"\"Analyze metrics for potential issues\"\"\"\n        # CPU analysis\n        if metrics.cpu_usage > 80:\n            self.logger.warning(\n                \x27High CPU usage detected\x27,\n                extra=\x7b\n                    \x27cpu_usage\x27: metrics.cpu_usage,\n                    \x27threshold\x27: 80\n                \x7d\n            )\n\n        # Memory analysis\n        rss_gb = metrics.memory_usage[\x27rss\x27] / (1024 ** 3)\n        if rss_gb > 1.0:  # 1GB threshold\n            self.logger.warning(\n                \x27High memory usage detected\x27,\n                extra=\x7b\n                    \x27memory_gb\x27: f\x27\x7brss_gb:.1f\x7d\x27,\n                    \x27threshold\x27: \x271.0GB\x27\n                \x7d\n            )\n\n        # Resource analysis\n        for resource in metrics.resources:\n            size_mb = resource.size / (1024 ** 2)\n            if size_mb > 100:  # 100MB threshold\n                self.logger.warning(\n                    \x27Large resource detected\x27,\n                    extra=\x7b\n                        \x27resource\x27: resource.name,\n                        \x27size_mb\x27: f\x27\x7bsize_mb:.1f\x7d\x27\n                    \x7d\n                )\n\n    def get_metrics_summary(self) -> Dict[str, Union[float, List[Dict]]]:\n        \"\"\"Generate metrics summary\"\"\"\n        if not self.metrics:\n            return \x7b\n                \x27average_cpu\x27: 0.0,\n                \x27peak_memory\x27: 0,\n                \x27resource_usage\x27: []\n            \x7d\n\n        average_cpu = sum(\n            m.cpu_usage for m in self.metrics\n        ) / len(self.metrics)\n\n        peak_memory = max(\n            m.memory_usage[\x27rss\x27] for m in self.metrics\n        )\n\n        # Aggregate resource usage\n        resource_usage = \x7b\x7d\n        for metric in self.metrics:\n            for resource in metric.resources:\n                if resource.name not in resource_usage:\n                    resource_usage[resource.name] = \x7b\n                        \x27size\x27: resource.size,\n                        \x27count\x27: 1\n                    \x7d\n                else:\n                    usage = resource_usage[resource.name]\n                    usage[\x27size\x27] = max(usage[\x27size\x27], resource.size)\n                    usage[\x27count\x27] += 1\n\n        return \x7b\n            \x27average_cpu\x27: average_cpu,\n            \x27peak_memory\x27: peak_memory,\n            \x27resource_usage\x27: [\n                \x7b\n                    \x27name\x27: name,\n                    \x27average_size\x27: stats[\x27size\x27] / stats[\x27count\x27],\n                    \x27peak_size\x27: stats[\x27size\x27],\n                    \x27access_count\x27: stats[\x27count\x27]\n                \x7d\n                for name, stats in resource_usage.items()\n            ]\n        \x7d\n\n    def generate_report(self) -> str:\n        \"\"\"Generate performance report\"\"\"\n        summary = self.get_metrics_summary()\n        \n        return f\"\"\"Performance Report\n----------------\nAverage CPU Usage: \x7bsummary[\x27average_cpu\x27]:.1f\x7d%\nPeak Memory Usage: \x7bsummary[\x27peak_memory\x27] / (1024 ** 2):.1f\x7dMB\nResource Usage:\n\x7bchr(10).join(\n    f\"- \x7br[\x27name\x27]\x7d: \"\n    f\"Avg: \x7br[\x27average_size\x27] / (1024 ** 2):.1f\x7dMB, \"\n    f\"Peak: \x7br[\x27peak_size\x27] / (1024 ** 2):.1f\x7dMB, \"\n    f\"Accesses: \x7br[\x27access_count\x27]\x7d\"\n    for r in summary[\x27resource_usage\x27]\n)\x7d\"\"\"\n\n# Performance monitoring decorators\ndef monitor_performance(func):\n    \"\"\"Decorator to monitor function performance\"\"\"\n    @wraps(func)\n    async def wrapper(*args, **kwargs):\n        profiler = PerformanceProfiler()\n        start_time = time.perf_counter()\n        \n        try:\n            return await func(*args, **kwargs)\n        finally:\n            duration = time.perf_counter() - start_time\n            logging.info(\n                f\x27\x7bfunc.__name__\x7d execution time: \x7bduration:.2f\x7ds\x27\n            )\n            \n    return wrapper\n\n@contextmanager\ndef performance_context(name: str):\n    \"\"\"Context manager for performance monitoring\"\"\"\n    profiler = PerformanceProfiler()\n    start_time = time.perf_counter()\n    \n    try:\n        yield profiler\n    finally:\n        duration = time.perf_counter() - start_time\n        logging.info(f\x27\x7bname\x7d execution time: \x7bduration:.2f\x7ds\x27)\n\n# Example usage\nasync def main():\n    # Initialize profiler\n    profiler = PerformanceProfiler(\n        sample_interval=1.0,\n        max_data_points=100,\n        enable_memory_profiling=True,\n        log_level=\x27WARNING\x27\n    )\n\n    # Start monitoring\n    monitoring_task = asyncio.create_task(profiler.start())\n\n    try:\n        # Your application code here\n        await asyncio.sleep(10)  # Simulate work\n\n    finally:\n        # Stop monitoring and generate report\n        profiler.stop()\n        print(profiler.generate_report())\n\n    await monitoring_task\n\n# Example with decorator\n@monitor_performance\nasync def process_data(data: List[dict]) -> None:\n    for item in data:\n        # Process item\n        await asyncio.sleep(0.1)\n\n# Example with context manager\nasync def batch_operation():\n    with performance_context(\x27batch_processing\x27):\n        # Perform batch operation\n        await asyncio.sleep(1)\n\nif __name__ == \x27__main__\x27:\n    asyncio.run(main())" },
    codeExamples := [
      { title := "Common Performance Issues",
        language := Language.typescript,
        code := "// \u274c Common performance issues\nclass DataGrid \x7b\n  // Issue 1: Inefficient rendering\n  render() \x7b\n    this.items.forEach(item => \x7b\n      const element = document.createElement(\x27div\x27);\n      element.innerHTML = item.toString();\n      this.container.appendChild(element);\n    \x7d);\n  \x7d\n  \n  // Issue 2: Memory leaks\n  attachListeners() \x7b\n    window.addEventListener(\x27scroll\x27, () => \x7b\n      this.handleScroll();\n    \x7d);\n  \x7d\n  \n  // Issue 3: Blocking operations\n  processData(items: any[]) \x7b\n    for (const item of items) \x7b\n      const result = heavyCalculation(item);\n      this.results.push(result);\n    \x7d\n  \x7d\n  \n  // Issue 4: Unoptimized images\n  loadImages() \x7b\n    this.images.forEach(src => \x7b\n      const img = new Image();\n      img.src = src;\n      this.container.appendChild(img);\n    \x7d);\n  \x7d\n\x7d",
        explanation := "Common performance issues include inefficient DOM operations, memory leaks, blocking operations, and unoptimized resource loading." },
      { title := "Optimized Implementation",
        language := Language.typescript,
        code := "// \u2705 Optimized implementation\nclass DataGrid \x7b\n  // Efficient rendering with DocumentFragment\n  render() \x7b\n    const fragment = document.createDocumentFragment();\n    \n    requestAnimationFrame(() => \x7b\n      this.items.forEach(item => \x7b\n        const element = document.createElement(\x27div\x27);\n        element.textContent = item.toString();\n        fragment.appendChild(element);\n      \x7d);\n      \n      this.container.appendChild(fragment);\n    \x7d);\n  \x7d\n  \n  // Proper event cleanup\n  private cleanup: Array<() => void> = [];\n  \n  attachListeners() \x7b\n    const handler = this.handleScroll.bind(this);\n    window.addEventListener(\x27scroll\x27, handler);\n    this.cleanup.push(() => \x7b\n      window.removeEventListener(\x27scroll\x27, handler);\n    \x7d);\n  \x7d\n  \n  // Non-blocking operations with chunking\n  async processData(items: any[]) \x7b\n    const chunkSize = 100;\n    \n    for (let i = 0; i < items.length; i += chunkSize) \x7b\n      const chunk = items.slice(i, i + chunkSize);\n      \n      // Process chunk in next tick\n      await new Promise(resolve => setTimeout(resolve, 0));\n      \n      const results = chunk.map(heavyCalculation);\n      this.results.push(...results);\n      \n      // Update progress\n      this.updateProgress(i / items.length);\n    \x7d\n  \x7d\n  \n  // Optimized image loading\n  loadImages() \x7b\n    const imageLoader = new ImageOptimizer();\n    \n    this.images.forEach(src => \x7b\n      const img = new Image();\n      \n      imageLoader.optimize(img);\n      img.dataset.src = src; // For lazy loading\n      \n      this.container.appendChild(img);\n    \x7d);\n  \x7d\n  \n  destroy() \x7b\n    // Clean up event listeners\n    this.cleanup.forEach(cleanup => cleanup());\n    this.cleanup = [];\n  \x7d\n\x7d",
        explanation := "This implementation uses efficient DOM operations, proper cleanup, non-blocking operations, and optimized resource loading." }],
    bestPractices := ["Use performance profiling tools",
      "Implement efficient DOM operations",
      "Optimize resource loading",
      "Handle memory management",
      "Use non-blocking operations",
      "Monitor performance metrics",
      "Implement proper cleanup"],
    commonPitfalls := ["Blocking main thread",
      "Memory leaks",
      "Unoptimized resource loading",
      "Inefficient DOM operations",
      "Missing performance monitoring",
      "Poor error handling",
      "No cleanup implementation"] }

/-- Rich registry entry `stackTracePattern` (src/data/patterns/stack-trace.ts). -/
def stackTracePattern : Pattern :=
  { id := "stack-trace",
    title := "Stack Trace Analyzer",
    description := "A structured approach to runtime error debugging, helping developers navigate complex stack traces, identify error sources, and implement error boundaries.",
    category := PatternCategory.RUNTIME,
    diagram := "https://raw.githubusercontent.com/noah-ing/Debug-Pics/refs/heads/main/mermaid-diagram-2025-01-09-223035.svg",
    useCases := ["Error tracking",
      "Stack trace analysis",
      "Error boundaries",
      "Runtime debugging"],
    implementation :=
      { typescript := "// Real-world example: Error tracking and analysis system\ninterface StackFrame \x7b\n  fileName: string;\n  lineNumber: number;\n  columnNumber: number;\n  functionName: string;\n  source?: string;\n\x7d\n\ninterface ErrorReport \x7b\n  id: string;\n  timestamp: Date;\n  error: \x7b\n    name: string;\n    message: string;\n    stack: StackFrame[];\n  \x7d;\n  context: \x7b\n    url: string;\n    userAgent: string;\n    [key: string]: any;\n  \x7d;\n\x7d\n\nclass ErrorTracker \x7b\n  private static instance: ErrorTracker;\n  private reports: ErrorReport[] = [];\n  private contextProviders: Map<string, () => any> = new Map();\n  private errorListeners: Set<(report: ErrorReport) => void> = new Set();\n  private logger: Console;\n\n  private constructor() \x7b\n    this.logger = console;\n    this.setupGlobalHandlers();\n  \x7d\n\n  static getInstance(): ErrorTracker \x7b\n    if (!ErrorTracker.instance) \x7b\n      ErrorTracker.instance = new ErrorTracker();\n    \x7d\n    return ErrorTracker.instance;\n  \x7d\n\n  private setupGlobalHandlers(): void \x7b\n    // Handle uncaught errors\n    window.addEventListener(\x27error\x27, (event) => \x7b\n      this.handleError(event.error);\n    \x7d);\n\n    // Handle unhandled promise rejections\n    window.addEventListener(\x27unhandledrejection\x27, (event) => \x7b\n      this.handleError(event.reason);\n    \x7d);\n\n    // Override console.error\n    const originalError = console.error;\n    console.error = (...args) => \x7b\n      const error = args[0];\n      if (error instanceof Error) \x7b\n        this.handleError(error);\n      \x7d\n      originalError.apply(console, args);\n    \x7d;\n  \x7d\n\n  addContextProvider(name: string, provider: () => any): void \x7b\n    this.contextProviders.set(name, provider);\n  \x7d\n\n  addEventListener(listener: (report: ErrorReport) => void): () => void \x7b\n    this.errorListeners.add(listener);\n    return () => this.errorListeners.delete(listener);\n  \x7d\n\n  async handleError(error: Error): Promise<void> \x7b\n    try \x7b\n      const stackFrames = this.parseStackTrace(error);\n      const context = this.gatherContext();\n\n      const report: ErrorReport = \x7b\n        id: this.generateErrorId(),\n        timestamp: new Date(),\n        error: \x7b\n          name: error.name,\n          message: error.message,\n          stack: stackFrames\n        \x7d,\n        context\n      \x7d;\n\n      this.reports.push(report);\n      this.notifyListeners(report);\n      await this.sendToServer(report);\n\n      this.logger.debug(\x27Error report generated:\x27, report);\n\n    \x7d catch (e) \x7b\n      this.logger.error(\x27Failed to handle error:\x27, e);\n    \x7d\n  \x7d\n\n  private parseStackTrace(error: Error): StackFrame[] \x7b\n    const stackLines = error.stack?.split(\x27\\n\x27) || [];\n    const frames: StackFrame[] = [];\n\n    for (const line of stackLines) \x7b\n      const frame = this.parseStackFrame(line);\n      if (frame) frames.push(frame);\n    \x7d\n\n    return frames;\n  \x7d\n\n  private parseStackFrame(line: string): StackFrame | null \x7b\n    // Chrome-style stack frame\n    const chromeMatch = line.match(\n      /at (?:(.+?)s+()?(?:(.+?):(d+):(d+)))?/\n    );\n    if (chromeMatch) \x7b\n      const [, fnName, fileName, lineNo, colNo] = chromeMatch;\n      return \x7b\n        functionName: fnName || \x27<anonymous>\x27,\n        fileName,\n        lineNumber: parseInt(lineNo, 10),\n        columnNumber: parseInt(colNo, 10),\n        source: line.trim()\n      \x7d;\n    \x7d\n\n    // Firefox-style stack frame\n    const firefoxMatch = line.match(\n      /(.*)@(.+):(d+):(d+)/\n    );\n    if (firefoxMatch) \x7b\n      const [, fnName, fileName, lineNo, colNo] = firefoxMatch;\n      return \x7b\n        functionName: fnName || \x27<anonymous>\x27,\n        fileName,\n        lineNumber: parseInt(lineNo, 10),\n        columnNumber: parseInt(colNo, 10),\n        source: line.trim()\n      \x7d;\n    \x7d\n\n    return null;\n  \x7d\n\n  private gatherContext(): any \x7b\n    const context: any = \x7b\n      url: window.location.href,\n      userAgent: navigator.userAgent,\n      timestamp: new Date().toISOString(),\n      viewport: \x7b\n        width: window.innerWidth,\n        height: window.innerHeight\n      \x7d\n    \x7d;\n\n    // Add custom context from providers\n    for (const [name, provider] of this.contextProviders) \x7b\n      try \x7b\n        context[name] = provider();\n      \x7d catch (e) \x7b\n        this.logger.warn(\x60Context provider \"$\x7bname\x7d\" failed:\x60, e);\n      \x7d\n    \x7d\n\n    return context;\n  \x7d\n\n  private generateErrorId(): string \x7b\n    return \x60$\x7bDate.now()\x7d-$\x7bMath.random().toString(36).substr(2, 9)\x7d\x60;\n  \x7d\n\n  private notifyListeners(report: ErrorReport): void \x7b\n    for (const listener of this.errorListeners) \x7b\n      try \x7b\n        listener(report);\n      \x7d catch (e) \x7b\n        this.logger.error(\x27Error listener failed:\x27, e);\n      \x7d\n    \x7d\n  \x7d\n\n  private async sendToServer(report: ErrorReport): Promise<void> \x7b\n    try \x7b\n      const response = await fetch(\x27/api/errors\x27, \x7b\n        method: \x27POST\x27,\n        headers: \x7b\n          \x27Content-Type\x27: \x27application/json\x27\n        \x7d,\n        body: JSON.stringify(report)\n      \x7d);\n\n      if (!response.ok) \x7b\n        throw new Error(\x60Server responded with $\x7bresponse.status\x7d\x60);\n      \x7d\n    \x7d catch (e) \x7b\n      this.logger.error(\x27Failed to send error report:\x27, e);\n    \x7d\n  \x7d\n\n  getErrorSummary(): \x7b\n    total: number;\n    recent: ErrorReport[];\n    topErrors: Array<\x7b\n      name: string;\n      count: number;\n    \x7d>;\n  \x7d \x7b\n    const recent = this.reports\n      .slice(-10)\n      .reverse();\n\n    const errorCounts = this.reports.reduce((acc, report) => \x7b\n      const name = report.error.name;\n      acc[name] = (acc[name] || 0) + 1;\n      return acc;\n    \x7d, \x7b\x7d as Record<string, number>);\n\n    const topErrors = Object.entries(errorCounts)\n      .map(([name, count]) => (\x7b name, count \x7d))\n      .sort((a, b) => b.count - a.count)\n      .slice(0, 5);\n\n    return \x7b\n      total: this.reports.length,\n      recent,\n      topErrors\n    \x7d;\n  \x7d\n\x7d\n\n// React Error Boundary implementation\nimport React from \x27react\x27;\n\ninterface ErrorBoundaryProps \x7b\n  fallback: React.ReactNode;\n  onError?: (error: Error, info: React.ErrorInfo) => void;\n  children: React.ReactNode;\n\x7d\n\ninterface ErrorBoundaryState \x7b\n  hasError: boolean;\n  error?: Error;\n\x7d\n\nclass ErrorBoundary extends React.Component<\n  ErrorBoundaryProps,\n  ErrorBoundaryState\n> \x7b\n  constructor(props: ErrorBoundaryProps) \x7b\n    super(props);\n    this.state = \x7b hasError: false \x7d;\n  \x7d\n\n  static getDerivedStateFromError(error: Error): ErrorBoundaryState \x7b\n    return \x7b hasError: true, error \x7d;\n  \x7d\n\n  componentDidCatch(error: Error, info: React.ErrorInfo): void \x7b\n    const \x7b onError \x7d = this.props;\n    \n    // Track error\n    ErrorTracker.getInstance().handleError(error);\n    \n    // Call custom error handler\n    if (onError) \x7b\n      onError(error, info);\n    \x7d\n  \x7d\n\n  render(): React.ReactNode \x7b\n    if (this.state.hasError) \x7b\n      return this.props.fallback;\n    \x7d\n\n    return this.props.children;\n  \x7d\n\x7d\n\n// Example usage\n// Initialize error tracker\nconst errorTracker = ErrorTracker.getInstance();\n\n// Add context providers\nerrorTracker.addContextProvider(\x27user\x27, () => (\x7b\n  id: getCurrentUser()?.id,\n  role: getCurrentUser()?.role\n\x7d));\n\nerrorTracker.addContextProvider(\x27app\x27, () => (\x7b\n  version: process.env.VERSION,\n  environment: process.env.NODE_ENV\n\x7d));\n\n// Add error listener\nerrorTracker.addEventListener((report) => \x7b\n  // Send to monitoring service\n  monitoring.trackError(report);\n\x7d);\n\n// Use in React application\nfunction App() \x7b\n  return (\n    <ErrorBoundary\n      fallback=\x7b<ErrorPage />\x7d\n      onError=\x7b(error, info) => \x7b\n        // Custom error handling\n        notifySupport(error);\n      \x7d\x7d\n    >\n      <MainContent />\n    </ErrorBoundary>\n  );\n\x7d\n\n// Example error handling in async function\nasync function fetchData() \x7b\n  try \x7b\n    const response = await fetch(\x27/api/data\x27);\n    if (!response.ok) \x7b\n      throw new Error(\x60API error: $\x7bresponse.status\x7d\x60);\n    \x7d\n    return await response.json();\n  \x7d catch (error) \x7b\n    errorTracker.handleError(error);\n    throw error;\n  \x7d\n\x7d",
        python := "# Real-world example: Error tracking and analysis system\nfrom dataclasses import dataclass\nfrom typing import Dict, List, Optional, Any, Callable\nimport traceback\nimport sys\nimport logging\nimport asyncio\nimport json\nfrom datetime import datetime\nimport inspect\nfrom contextlib import contextmanager\nimport functools\n\n@dataclass\nclass StackFrame:\n    \"\"\"Stack frame information\"\"\"\n    filename: str\n    lineno: int\n    name: str\n    line: Optional[str] = None\n    locals: Optional[Dict[str, str]] = None\n\n@dataclass\nclass ErrorReport:\n    \"\"\"Detailed error report\"\"\"\n    id: str\n    timestamp: datetime\n    error_type: str\n    message: str\n    stack_frames: List[StackFrame]\n    context: Dict[str, Any]\n\nclass ErrorTracker:\n    \"\"\"Error tracking and analysis system\"\"\"\n    \n    _instance = None\n    \n    def __new__(cls):\n        if cls._instance is None:\n            cls._instance = super().__new__(cls)\n        return cls._instance\n\n    def __init__(self):\n        if not hasattr(self, \x27initialized\x27):\n            self.reports: List[ErrorReport] = []\n            self.context_providers: Dict[str, Callable[[], Any]] = \x7b\x7d\n            self.error_handlers: List[Callable[[ErrorReport], None]] = []\n            self.logger = logging.getLogger(__name__)\n            self.setup_global_handlers()\n            self.initialized = True\n\n    def setup_global_handlers(self) -> None:\n        \"\"\"Setup global exception handlers\"\"\"\n        # Override sys.excepthook\n        self._original_excepthook = sys.excepthook\n        sys.excepthook = self._global_exception_handler\n\n        # Override asyncio exception handler\n        loop = asyncio.get_event_loop()\n        loop.set_exception_handler(self._asyncio_exception_handler)\n\n    def _global_exception_handler(\n        self,\n        exc_type: type,\n        exc_value: Exception,\n        exc_tb: traceback.TracebackType\n    ) -> None:\n        \"\"\"Handle uncaught exceptions\"\"\"\n        self.handle_error(exc_value)\n        self._original_excepthook(exc_type, exc_value, exc_tb)\n\n    def _asyncio_exception_handler(\n        self,\n        loop: asyncio.AbstractEventLoop,\n        context: Dict[str, Any]\n    ) -> None:\n        \"\"\"Handle asyncio exceptions\"\"\"\n        exception = context.get(\x27exception\x27)\n        if exception:\n            self.handle_error(exception)\n\n    def add_context_provider(\n        self,\n        name: str,\n        provider: Callable[[], Any]\n    ) -> None:\n        \"\"\"Add a context provider\"\"\"\n        self.context_providers[name] = provider\n\n    def add_error_handler(\n        self,\n        handler: Callable[[ErrorReport], None]\n    ) -> None:\n        \"\"\"Add an error handler\"\"\"\n        self.error_handlers.append(handler)\n\n    def handle_error(self, error: Exception) -> ErrorReport:\n        \"\"\"Process and track an error\"\"\"\n        try:\n            stack_frames = self._parse_traceback(error)\n            context = self._gather_context()\n\n            report = ErrorReport(\n                id=self._generate_error_id(),\n                timestamp=datetime.now(),\n                error_type=error.__class__.__name__,\n                message=str(error),\n                stack_frames=stack_frames,\n                context=context\n            )\n\n            self.reports.append(report)\n            self._notify_handlers(report)\n            \n            self.logger.debug(\n                \x27Error report generated\x27,\n                extra=\x7b\x27report\x27: self._serialize_report(report)\x7d\n            )\n\n            return report\n\n        except Exception as e:\n            self.logger.error(\n                \x27Failed to handle error\x27,\n                exc_info=e\n            )\n            raise\n\n    def _parse_traceback(self, error: Exception) -> List[StackFrame]:\n        \"\"\"Parse exception traceback into structured data\"\"\"\n        frames = []\n        tb = traceback.extract_tb(error.__traceback__)\n\n        for frame_info in tb:\n            # Get local variables if available\n            locals_dict = None\n            try:\n                frame = sys._getframe(len(tb) - len(frames))\n                locals_dict = \x7b\n                    name: repr(value)\n                    for name, value in frame.f_locals.items()\n                \x7d\n            except Exception:\n                pass\n\n            frames.append(StackFrame(\n                filename=frame_info.filename,\n                lineno=frame_info.lineno,\n                name=frame_info.name,\n                line=frame_info.line,\n                locals=locals_dict\n            ))\n\n        return frames\n\n    def _gather_context(self) -> Dict[str, Any]:\n        \"\"\"Gather context from all providers\"\"\"\n        context = \x7b\n            \x27timestamp\x27: datetime.now().isoformat(),\n            \x27python_version\x27: sys.version,\n            \x27platform\x27: sys.platform\n        \x7d\n\n        # Add custom context\n        for name, provider in self.context_providers.items():\n            try:\n                context[name] = provider()\n            except Exception as e:\n                self.logger.warning(\n                    f\x27Context provider \"\x7bname\x7d\" failed\x27,\n                    exc_info=e\n                )\n\n        return context\n\n    def _generate_error_id(self) -> str:\n        \"\"\"Generate unique error ID\"\"\"\n        import uuid\n        return str(uuid.uuid4())\n\n    def _notify_handlers(self, report: ErrorReport) -> None:\n        \"\"\"Notify all error handlers\"\"\"\n        for handler in self.error_handlers:\n            try:\n                handler(report)\n            except Exception as e:\n                self.logger.error(\n                    \x27Error handler failed\x27,\n                    exc_info=e\n                )\n\n    def _serialize_report(self, report: ErrorReport) -> Dict[str, Any]:\n        \"\"\"Serialize error report for logging\"\"\"\n        return \x7b\n            \x27id\x27: report.id,\n            \x27timestamp\x27: report.timestamp.isoformat(),\n            \x27error_type\x27: report.error_type,\n            \x27message\x27: report.message,\n            \x27stack_frames\x27: [\n                \x7b\n                    \x27filename\x27: frame.filename,\n                    \x27lineno\x27: frame.lineno,\n                    \x27name\x27: frame.name,\n                    \x27line\x27: frame.line\n                \x7d\n                for frame in report.stack_frames\n            ],\n            \x27context\x27: report.context\n        \x7d\n\n    def get_error_summary(self) -> Dict[str, Any]:\n        \"\"\"Generate error summary\"\"\"\n        error_counts = \x7b\x7d\n        for report in self.reports:\n            error_type = report.error_type\n            error_counts[error_type] = error_counts.get(error_type, 0) + 1\n\n        return \x7b\n            \x27total_errors\x27: len(self.reports),\n            \x27recent_errors\x27: [\n                self._serialize_report(report)\n                for report in self.reports[-10:]\n            ],\n            \x27error_types\x27: [\n                \x7b\x27type\x27: error_type, \x27count\x27: count\x7d\n                for error_type, count in sorted(\n                    error_counts.items(),\n                    key=lambda x: x[1],\n                    reverse=True\n                )\n            ]\n        \x7d\n\n# Error handling decorators and context managers\ndef track_errors(func):\n    \"\"\"Decorator to track function errors\"\"\"\n    @functools.wraps(func)\n    def wrapper(*args, **kwargs):\n        try:\n            return func(*args, **kwargs)\n        except Exception as e:\n            ErrorTracker().handle_error(e)\n            raise\n    return wrapper\n\n@contextmanager\ndef error_boundary(context: Dict[str, Any] = None):\n    \"\"\"Context manager for error handling\"\"\"\n    tracker = ErrorTracker()\n    if context:\n        tracker.add_context_provider(\n            \x27boundary_context\x27,\n            lambda: context\n        )\n    \n    try:\n        yield\n    except Exception as e:\n        tracker.handle_error(e)\n        raise\n\n# Example usage\n# Initialize error tracker\ntracker = ErrorTracker()\n\n# Add context providers\ndef get_user_context():\n    return \x7b\n        \x27user_id\x27: current_user.id,\n        \x27role\x27: current_user.role\n    \x7d\n\ndef get_app_context():\n    return \x7b\n        \x27version\x27: APP_VERSION,\n        \x27environment\x27: APP_ENV\n    \x7d\n\ntracker.add_context_provider(\x27user\x27, get_user_context)\ntracker.add_context_provider(\x27app\x27, get_app_context)\n\n# Add error handler\ndef send_to_monitoring(report: ErrorReport):\n    monitoring_service.track_error(\n        error_id=report.id,\n        error_type=report.error_type,\n        message=report.message,\n        stack_trace=report.stack_frames,\n        metadata=report.context\n    )\n\ntracker.add_error_handler(send_to_monitoring)\n\n# Example usage with decorator\n@track_errors\ndef process_data(data: Dict[str, Any]) -> None:\n    # Process data\n    result = complex_operation(data)\n    save_result(result)\n\n# Example usage with context manager\nasync def handle_request(request):\n    with error_boundary(\x7b\n        \x27request_id\x27: request.id,\n        \x27path\x27: request.path\n    \x7d):\n        # Handle request\n        data = await process_request(request)\n        return create_response(data)\n\n# Example error handling in async function\nasync def fetch_data():\n    try:\n        async with aiohttp.ClientSession() as session:\n            async with session.get(\x27/api/data\x27) as response:\n                if response.status >= 400:\n                    raise ValueError(\n                        f\x27API error: \x7bresponse.status\x7d\x27\n                    )\n                return await response.json()\n    except Exception as e:\n        ErrorTracker().handle_error(e)\n        raise" },
    codeExamples := [
      { title := "Common Error Handling Issues",
        language := Language.typescript,
        code := "// \u274c Common error handling issues\nclass Service \x7b\n  // Issue 1: Generic error handling\n  async fetchData() \x7b\n    try \x7b\n      const response = await fetch(\x27/api/data\x27);\n      return await response.json();\n    \x7d catch (error) \x7b\n      console.error(\x27Error:\x27, error);\n    \x7d\n  \x7d\n  \n  // Issue 2: Swallowing errors\n  processItem(item: any) \x7b\n    try \x7b\n      return this.transform(item);\n    \x7d catch \x7b\n      return null;\n    \x7d\n  \x7d\n  \n  // Issue 3: No error boundaries\n  render() \x7b\n    return <Component />;\n  \x7d\n  \n  // Issue 4: Poor error information\n  async saveData(data: any) \x7b\n    if (!this.validate(data)) \x7b\n      throw new Error(\x27Invalid data\x27);\n    \x7d\n  \x7d\n\x7d",
        explanation := "Common issues include generic error handling, swallowing errors, missing error boundaries, and poor error information." },
      { title := "Robust Error Handling",
        language := Language.typescript,
        code := "// \u2705 Robust error handling\nclass Service \x7b\n  // Specific error types\n  class APIError extends Error \x7b\n    constructor(\n      message: string,\n      public status: number,\n      public code: string\n    ) \x7b\n      super(message);\n      this.name = \x27APIError\x27;\n    \x7d\n  \x7d\n\n  // Proper error handling with context\n  async fetchData() \x7b\n    try \x7b\n      const response = await fetch(\x27/api/data\x27);\n      \n      if (!response.ok) \x7b\n        throw new APIError(\n          \x27API request failed\x27,\n          response.status,\n          await response.text()\n        );\n      \x7d\n      \n      return await response.json();\n      \n    \x7d catch (error) \x7b\n      // Track error with context\n      ErrorTracker.getInstance().handleError(error, \x7b\n        endpoint: \x27/api/data\x27,\n        method: \x27GET\x27\n      \x7d);\n      \n      // Rethrow for boundary handling\n      throw error;\n    \x7d\n  \x7d\n\n  // Error boundary implementation\n  render() \x7b\n    return (\n      <ErrorBoundary\n        fallback=\x7b<ErrorDisplay />\x7d\n        onError=\x7b(error) => \x7b\n          // Log error\n          logger.error(\x27Component error:\x27, error);\n          \n          // Show user feedback\n          notifications.show(\x7b\n            type: \x27error\x27,\n            message: \x27Something went wrong\x27\n          \x7d);\n        \x7d\x7d\n      >\n        <Component />\n      </ErrorBoundary>\n    );\n  \x7d\n\n  // Detailed error information\n  async saveData(data: any) \x7b\n    const validation = this.validate(data);\n    \n    if (!validation.valid) \x7b\n      throw new ValidationError(\n        \x27Data validation failed\x27,\n        validation.errors,\n        \x7b\n          fields: validation.failedFields,\n          data: JSON.stringify(data)\n        \x7d\n      );\n    \x7d\n  \x7d\n\n  // Cleanup on error\n  async processItems(items: any[]) \x7b\n    const processed = new Set();\n    \n    try \x7b\n      for (const item of items) \x7b\n        await this.process(item);\n        processed.add(item.id);\n      \x7d\n      \n    \x7d catch (error) \x7b\n      // Cleanup processed items\n      await this.rollback(Array.from(processed));\n      throw error;\n    \x7d\n  \x7d\n\x7d",
        explanation := "This implementation includes specific error types, proper error tracking, error boundaries, and cleanup handling." }],
    bestPractices := ["Use specific error types",
      "Include error context",
      "Implement error boundaries",
      "Add error tracking",
      "Handle async errors",
      "Provide cleanup mechanisms",
      "Log error details"],
    commonPitfalls := ["Generic error handling",
      "Swallowing errors",
      "Missing error boundaries",
      "Poor error information",
      "No error tracking",
      "Inconsistent error handling",
      "Missing cleanup on error"] }

/-- The rich registry (src/data/registry.ts lines 9-16), in its
declaration order. -/
def patterns : List Pattern :=
  [asyncPromiseHellPattern, memoryLeaksPattern, apiIntegrationPattern,
   stateManagementPattern, performanceBottleneckPattern, stackTracePattern]

/-- Related patterns for the rich detail page, limit generalized:
patterns.filter(p => p.id !== currentPattern.id).slice(0, 2)
(src/unnamed/part_000 lines 286-288). -/
def relatedTo (id : String) (limit : Nat) : List Pattern :=
  (patterns.filter (fun p => p.id != id)).take limit

end Data

namespace Components

/-- Code points JS String.prototype.trim removes: ECMA-262 WhiteSpace
(TAB, VT, FF, SP, NBSP, ZWNBSP and the Zs space separators) and
LineTerminator (LF, CR, LS, PS). -/
def jsWhitespaceCodes : List Nat :=
  [0x9, 0xA, 0xB, 0xC, 0xD, 0x20, 0xA0, 0x1680,
   0x2000, 0x2001, 0x2002, 0x2003, 0x2004, 0x2005, 0x2006, 0x2007,
   0x2008, 0x2009, 0x200A, 0x2028, 0x2029, 0x202F, 0x205F, 0x3000, 0xFEFF]

/-- Whether a character is JS whitespace. -/
def isJsWhitespace (c : Char) : Bool :=
  jsWhitespaceCodes.contains c.toNat

/-- JS String.prototype.trim: drop whitespace from the front, then from
the back. Used by the CodeBlock body, which renders code.trim()
(src/components/code-block.tsx line 114). -/
def jsTrim (s : String) : String :=
  String.mk ((s.data.dropWhile isJsWhitespace).rdropWhile isJsWhitespace)

/-- The text the CodeBlock body displays for a code prop: code.trim()
(src/components/code-block.tsx line 114). -/
def displayedCode (code : String) : String :=
  jsTrim code

/-- The text the copy button hands to the clipboard: the code prop itself,
untrimmed (navigator.clipboard.writeText(code), line 76). -/
def copiedText (code : String) : String :=
  code

/-- The mutable state of one CodeBlock instance: the copied flag
(useState(false), line 72). -/
structure CodeBlockState where
  copied : Bool
deriving Repr, DecidableEq

/-- Initial CodeBlock state: copied = false (line 72). -/
def initialCodeBlockState : CodeBlockState :=
  { copied := false }

/-- Observable result of one invocation of copyToClipboard: the component
state afterwards, the clipboard writes attempted, and the console errors
logged. -/
structure CopyOutcome where
  state : CodeBlockState
  clipboardWrites : List String
  consoleErrors : List String
deriving Repr, DecidableEq

/-- copyToClipboard (src/components/code-block.tsx lines 74-82). The
function awaits exactly one navigator.clipboard.writeText(code) call,
whose outcome the environment supplies here as an Except. On success it
sets copied (reset later by a timer, not modelled); on failure the catch
block only logs, so the state is returned unchanged, there is no second
write, and the function returns normally either way (the outcome type has
no error component). -/
def copyToClipboard (code : String) (s : CodeBlockState)
    (writeResult : Except String Unit) : CopyOutcome :=
  match writeResult with
  | Except.ok _ =>
      { state := { copied := true }, clipboardWrites := [code], consoleErrors := [] }
  | Except.error e =>
      { state := s, clipboardWrites := [code],
        consoleErrors := ["Failed to copy code: " ++ e] }

/-- Initial language state of ImplementationBlock:
useState<'typescript' | 'python'>('typescript') (line 49). -/
def initialLanguage : Data.Language :=
  Data.Language.typescript

/-- The languages the LanguageToggle always offers, hardcoded at line 60:
['typescript', 'python']. -/
def toggleLanguages : List Data.Language :=
  [Data.Language.typescript, Data.Language.python]

/-- The code ImplementationBlock selects for the active language (line 50:
language === 'typescript' ? typescript : python). The props are typed as
strings in TS but can be undefined at runtime when a pattern lacks an
entry, hence Options here. -/
def implementationFor (typescript python : Option String) :
    Data.Language → Option String
  | Data.Language.typescript => typescript
  | Data.Language.python => python

/-- The CodeBlock body applied to a possibly-undefined code prop: it
renders code.trim() (line 114), which in JS throws a TypeError when code
is undefined. The throw is embedded as an Except.error. -/
def renderCodeBlock (code : Option String) : Except String String :=
  match code with
  | some c => Except.ok (jsTrim c)
  | none => Except.error "TypeError: undefined has no trim"

/-- Rendering ImplementationBlock in a given language state: select the
code for that language, then render it through CodeBlock. -/
def renderImplementationBlock (typescript python : Option String)
    (lang : Data.Language) : Except String String :=
  renderCodeBlock (implementationFor typescript python lang)

end Components

/-- The related-patterns property exactly as the spec states it, for the
simple registry: for every id and limit, the result excludes the id,
stays in registry order, and has exactly min(limit, |registry| - 1)
entries. (The count clause fails for ids outside the registry.) -/
def relatedToClaim : Prop :=
  ∀ (id : String) (limit : Nat),
    (∀ p ∈ Lib.relatedTo id limit, p.id ≠ id) ∧
    List.Sublist (Lib.relatedTo id limit) Lib.patterns ∧
    (Lib.relatedTo id limit).length = min limit (Lib.patterns.length - 1)

/-- The optional-implementation property exactly as the spec states it:
a pattern with a typescript entry and an absent python entry renders in
every selectable language state without error, and the view exposes the
typescript example only. -/
def implementationOptionalClaim : Prop :=
  (∀ ts : String, ∀ lang ∈ Components.toggleLanguages,
    (Components.renderImplementationBlock (some ts) none lang).isOk = true) ∧
  Components.toggleLanguages = [Data.Language.typescript]

/-! ## Helper lemmas shared by the claim theorems -/

/-- The ids of the simple registry are pairwise distinct. -/
lemma lib_ids_nodup : (Lib.patterns.map (fun p => p.id)).Nodup := by decide

/-- The ids of the rich registry are pairwise distinct. -/
lemma data_ids_nodup : (Data.patterns.map (fun p => p.id)).Nodup := by decide

/-- rdropWhile and rtakeWhile split a list. -/
lemma list_rdrop_append_rtake {α : Type} (p : α → Bool) (l : List α) :
    l.rdropWhile p ++ l.rtakeWhile p = l := by
  rw [List.rdropWhile, List.rtakeWhile, ← List.reverse_append,
    List.takeWhile_append_dropWhile, List.reverse_reverse]

/-- Filtering away an id that occurs nowhere keeps the whole list. -/
lemma filter_ne_eq_self_of_forall {α : Type} (f : α → String) (id : String)
    (l : List α) (h : ∀ p ∈ l, f p ≠ id) :
    l.filter (fun p => f p != id) = l := by
  rw [List.filter_eq_self]
  intro a ha
  simpa using h a ha

/-- Filtering away an id that occurs (under distinct ids) drops exactly
one element. -/
lemma length_filter_ne_of_mem {α : Type} (f : α → String) (id : String) :
    ∀ l : List α, (l.map f).Nodup → (∃ p ∈ l, f p = id) →
      (l.filter (fun p => f p != id)).length = l.length - 1 := by
  intro l
  induction l with
  | nil => rintro _ ⟨p, hp, _⟩; exact absurd hp (List.not_mem_nil p)
  | cons a t ih =>
    intro hnd hex
    rw [List.map_cons, List.nodup_cons] at hnd
    by_cases ha : f a = id
    · have ht : ∀ p ∈ t, f p ≠ id := by
        intro p hp hpid
        have : f a ∈ t.map f := by
          rw [ha, ← hpid]
          exact List.mem_map_of_mem f hp
        exact hnd.1 this
      rw [List.filter_cons_of_neg (by simpa using ha),
        filter_ne_eq_self_of_forall f id t ht]
      simp
    · rcases hex with ⟨p, hp, hpid⟩
      rcases List.mem_cons.mp hp with rfl | hpt
      · exact absurd hpid ha
      · have hpos : 0 < t.length := List.length_pos.mpr (by
          rintro rfl
          exact (List.not_mem_nil p) hpt)
        rw [List.filter_cons_of_pos (by simpa using ha), List.length_cons,
          ih hnd.2 ⟨p, hpt, hpid⟩, List.length_cons]
        omega

/-- Under distinct ids, find-by-id at a member's id returns that member. -/
lemma find_id_eq_some {α : Type} (f : α → String) (l : List α)
    (hnd : (l.map f).Nodup) (p : α) (hp : p ∈ l) :
    l.find? (fun q => f q == f p) = some p := by
  cases hg : l.find? (fun q => f q == f p) with
  | none =>
    rw [List.find?_eq_none] at hg
    exact absurd (by simp) (hg p hp)
  | some q =>
    have hq : f q = f p := by simpa using List.find?_some hg
    have hqm : q ∈ l := List.mem_of_find?_eq_some hg
    rw [List.inj_on_of_nodup_map hnd hqm hp hq]

/-- The filter-and-take related-patterns computation: exclusion, order
preservation, and its exact length for member and non-member ids. -/
lemma relatedTo_general {α : Type} (f : α → String) (l : List α)
    (hnd : (l.map f).Nodup) (id : String) (limit : Nat) :
    (∀ p ∈ (l.filter (fun p => f p != id)).take limit, f p ≠ id) ∧
    List.Sublist ((l.filter (fun p => f p != id)).take limit) l ∧
    ((∃ p ∈ l, f p = id) →
      ((l.filter (fun p => f p != id)).take limit).length =
        min limit (l.length - 1)) ∧
    ((∀ p ∈ l, f p ≠ id) →
      ((l.filter (fun p => f p != id)).take limit).length =
        min limit l.length) := by
  refine ⟨?_, ?_, ?_, ?_⟩
  · intro p hp
    have h1 : p ∈ l.filter (fun p => f p != id) := List.mem_of_mem_take hp
    simpa using (List.mem_filter.mp h1).2
  · exact (List.take_sublist _ _).trans (List.filter_sublist l)
  · intro hex
    rw [List.length_take, length_filter_ne_of_mem f id l hnd hex]
  · intro hall
    rw [List.length_take, filter_ne_eq_self_of_forall f id l hall]

/-! ## Claim theorems -/

/-- Claim C1: for every id string, get returns the unique registry
Pattern with that id when one exists, and signals absence by returning
none otherwise; being an Option-valued total function, it never throws
for a missing id. -/
theorem get_spec (id : String) :
    ((∃ p ∈ Lib.patterns, p.id = id) →
      ∃ p, Lib.get id = some p ∧ p ∈ Lib.patterns ∧ p.id = id ∧
        ∀ q ∈ Lib.patterns, q.id = id → q = p) ∧
    ((∀ p ∈ Lib.patterns, p.id ≠ id) → Lib.get id = none) := by
  constructor
  · rintro ⟨p, hp, hpid⟩
    subst hpid
    refine ⟨p, ?_, hp, rfl, ?_⟩
    · exact find_id_eq_some (fun q => q.id) Lib.patterns lib_ids_nodup p hp
    · intro q hq hqid
      exact List.inj_on_of_nodup_map lib_ids_nodup hq hp hqid
  · intro h
    simp only [Lib.get, List.find?_eq_none]
    intro q hq
    simpa using h q hq

/-- Witness for C1: both branches of get_spec at concrete ids —
"memory-leaks" is found (uniquely), "no-such-pattern" yields none. -/
theorem get_spec_witness :
    ((∃ p ∈ Lib.patterns, p.id = "memory-leaks") ∧
      ∃ p, Lib.get "memory-leaks" = some p ∧ p ∈ Lib.patterns ∧
        p.id = "memory-leaks" ∧
        ∀ q ∈ Lib.patterns, q.id = "memory-leaks" → q = p) ∧
    ((∀ p ∈ Lib.patterns, p.id ≠ "no-such-pattern") ∧
      Lib.get "no-such-pattern" = none) := by
  have h1 : ∃ p ∈ Lib.patterns, p.id = "memory-leaks" :=
    ⟨Lib.patterns.get ⟨1, by decide⟩, List.get_mem _ _ _, by decide⟩
  have h2 : ∀ p ∈ Lib.patterns, p.id ≠ "no-such-pattern" := by decide
  exact ⟨⟨h1, (get_spec "memory-leaks").1 h1⟩,
    ⟨h2, (get_spec "no-such-pattern").2 h2⟩⟩

/-- Claim C2: in both registries the id field is unique — the id lists
are duplicate-free, so distinct patterns have distinct ids. -/
theorem registry_ids_unique :
    (Lib.patterns.map (fun p => p.id)).Nodup ∧
    (Data.patterns.map (fun p => p.id)).Nodup ∧
    (∀ p ∈ Lib.patterns, ∀ q ∈ Lib.patterns, p ≠ q → p.id ≠ q.id) ∧
    (∀ p ∈ Data.patterns, ∀ q ∈ Data.patterns, p ≠ q → p.id ≠ q.id) := by
  refine ⟨lib_ids_nodup, data_ids_nodup, ?_, ?_⟩
  · intro p hp q hq hne hid
    exact hne (List.inj_on_of_nodup_map lib_ids_nodup hp hq hid)
  · intro p hp q hq hne hid
    exact hne (List.inj_on_of_nodup_map data_ids_nodup hp hq hid)

/-- Witness for C2: two concrete distinct registry patterns have
distinct ids. -/
theorem registry_ids_unique_witness :
    (Lib.patterns.get ⟨0, by decide⟩).id ≠
      (Lib.patterns.get ⟨1, by decide⟩).id := by
  have hne : Lib.patterns.get ⟨0, by decide⟩ ≠ Lib.patterns.get ⟨1, by decide⟩ :=
    fun h => absurd (congrArg (fun p => p.id) h) (by decide)
  exact registry_ids_unique.2.2.1 _ (List.get_mem _ _ _) _
    (List.get_mem _ _ _) hne

/-- Counterexample to C3 as stated: for an id outside the registry and
limit 6, relatedTo returns all 6 patterns, not min(6, 6 - 1) = 5, so the
count clause is false for arbitrary ids. -/
theorem relatedTo_count_counterexample :
    (Lib.relatedTo "no-such-pattern" 6).length = 6 ∧
    min 6 (Lib.patterns.length - 1) = 5 ∧
    ¬ relatedToClaim := by
  refine ⟨by decide, by decide, fun h => ?_⟩
  exact absurd (h "no-such-pattern" 6).2.2 (by decide)

/-- Claim C3 (amended): relatedTo never includes a pattern with the
given id and returns entries in registry order (a sublist); the count is
min(limit, |registry| - 1) when the id belongs to a registry pattern,
and min(limit, |registry|) when it does not. Both the simple and the
rich registry pages compute it the same way. -/
theorem relatedTo_spec (id : String) (limit : Nat) :
    (∀ p ∈ Lib.relatedTo id limit, p.id ≠ id) ∧
    List.Sublist (Lib.relatedTo id limit) Lib.patterns ∧
    ((∃ p ∈ Lib.patterns, p.id = id) →
      (Lib.relatedTo id limit).length = min limit (Lib.patterns.length - 1)) ∧
    ((∀ p ∈ Lib.patterns, p.id ≠ id) →
      (Lib.relatedTo id limit).length = min limit Lib.patterns.length) ∧
    (∀ p ∈ Data.relatedTo id limit, p.id ≠ id) ∧
    List.Sublist (Data.relatedTo id limit) Data.patterns ∧
    ((∃ p ∈ Data.patterns, p.id = id) →
      (Data.relatedTo id limit).length =
        min limit (Data.patterns.length - 1)) := by
  obtain ⟨a1, a2, a3, a4⟩ :=
    relatedTo_general (fun p => p.id) Lib.patterns lib_ids_nodup id limit
  obtain ⟨b1, b2, b3, _⟩ :=
    relatedTo_general (fun p => p.id) Data.patterns data_ids_nodup id limit
  exact ⟨a1, a2, a3, a4, b1, b2, b3⟩

/-- Witness for C3: the count clauses of relatedTo_spec at concrete
inputs — a registry id with limit 2 (the page's call) and a foreign id
with limit 9. -/
theorem relatedTo_spec_witness :
    (∃ p ∈ Lib.patterns, p.id = "memory-leaks") ∧
    (Lib.relatedTo "memory-leaks" 2).length =
      min 2 (Lib.patterns.length - 1) ∧
    (∀ p ∈ Lib.patterns, p.id ≠ "no-such-pattern") ∧
    (Lib.relatedTo "no-such-pattern" 9).length =
      min 9 Lib.patterns.length := by
  have h1 : ∃ p ∈ Lib.patterns, p.id = "memory-leaks" :=
    ⟨Lib.patterns.get ⟨1, by decide⟩, List.get_mem _ _ _, by decide⟩
  have h2 : ∀ p ∈ Lib.patterns, p.id ≠ "no-such-pattern" := by decide
  exact ⟨h1, (relatedTo_spec "memory-leaks" 2).2.2.1 h1,
    h2, (relatedTo_spec "no-such-pattern" 9).2.2.2.1 h2⟩

/-- Claim C4: list() returns the full registry sequence — all six
entries, in declaration order — and every call yields the same sequence. -/
theorem list_stable :
    (∀ u : Unit, Lib.list u = Lib.patterns) ∧
    (Lib.list ()).map (fun p => p.id) =
      ["async-promise-hell", "memory-leaks", "api-integration",
        "state-management", "performance-bottleneck", "stack-trace"] ∧
    (Lib.list ()).length = 6 ∧
    (∀ p : Lib.Pattern, p ∈ Lib.list () ↔ p ∈ Lib.patterns) :=
  ⟨fun _ => rfl, rfl, rfl, fun _ => Iff.rfl⟩

/-- Claim C5: round-trip — every pattern shown by the list view is
resolved by the detail view's lookup to the same record. -/
theorem list_detail_round_trip (p : Lib.Pattern) (hp : p ∈ Lib.list ()) :
    Lib.get p.id = some p := by
  show Lib.patterns.find? (fun q => q.id == p.id) = some p
  exact find_id_eq_some (fun q => q.id) Lib.patterns lib_ids_nodup p hp

/-- Witness for C5: the round trip at a concrete listed pattern. -/
theorem list_detail_round_trip_witness :
    ∃ p, p ∈ Lib.list () ∧ Lib.get p.id = some p :=
  ⟨Lib.patterns.get ⟨0, by decide⟩, List.get_mem _ _ _,
    list_detail_round_trip _ (List.get_mem _ _ _)⟩

/-- Counterexample to C6 as stated: with typescript present and python
absent, the view does not expose only the typescript example — the
toggle offers python, and rendering in the python state throws (trim of
undefined), so the missing entry is an error condition there. -/
theorem implementation_missing_python_error :
    Components.renderImplementationBlock (some "const x = 1;") none
      Data.Language.python =
      Except.error "TypeError: undefined has no trim" ∧
    ¬ implementationOptionalClaim := by
  refine ⟨rfl, fun h => ?_⟩
  exact absurd (h.1 "const x = 1;" Data.Language.python (by decide)) (by decide)

/-- Claim C6 (amended): a pattern with typescript present and python
absent renders its initial detail view (typescript active) without
error, showing the trimmed typescript example; but the toggle still
offers python, and selecting python raises a render error. -/
theorem implementation_missing_python_render (ts : String) :
    Components.renderImplementationBlock (some ts) none
      Components.initialLanguage = Except.ok (Components.jsTrim ts) ∧
    Components.initialLanguage = Data.Language.typescript ∧
    Data.Language.python ∈ Components.toggleLanguages ∧
    Components.renderImplementationBlock (some ts) none
      Data.Language.python =
      Except.error "TypeError: undefined has no trim" :=
  ⟨rfl, rfl, by decide, rfl⟩

/-- Claim C7: the simple registry is a projection of the rich one — same
length, same order, and agreement at every position on id, title,
description, category and diagram. -/
theorem registries_agree :
    Data.patterns.length = Lib.patterns.length ∧
    Data.patterns.map
        (fun p => (p.id, p.title, p.description, p.category.toStr, p.diagram)) =
      Lib.patterns.map
        (fun p => (p.id, p.title, p.description, p.category, p.diagram)) :=
  ⟨rfl, rfl⟩

/-- Claim C8: when the clipboard write fails, the copy action leaves the
component state unchanged (copied stays false from the initial state),
attempts exactly one write (no retry), only logs the failure, and — the
outcome type having no error component — propagates nothing to the
caller; on success it just sets the copied flag. -/
theorem copy_failure_contained (code err : String)
    (s : Components.CodeBlockState) :
    (Components.copyToClipboard code s (Except.error err)).state = s ∧
    (Components.copyToClipboard code Components.initialCodeBlockState
        (Except.error err)).state.copied = false ∧
    (Components.copyToClipboard code s (Except.error err)).clipboardWrites =
      [code] ∧
    (Components.copyToClipboard code s (Except.error err)).consoleErrors =
      ["Failed to copy code: " ++ err] ∧
    (Components.copyToClipboard code s (Except.ok ())).state.copied = true :=
  ⟨rfl, rfl, rfl, rfl, rfl⟩

/-- Claim C9: every simple-registry category string is the denotation of
a member of the fixed enumeration, and every rich-registry category is a
member of the enumeration by construction. -/
theorem categories_in_enumeration :
    (∀ p ∈ Lib.patterns,
      p.category ∈ Data.PatternCategory.all.map Data.PatternCategory.toStr) ∧
    (∀ p ∈ Data.patterns, p.category ∈ Data.PatternCategory.all) := by
  decide

/-- Claim C10: the copy button writes the stored code text exactly while
the view displays the trimmed text, which differs from the stored text
only by leading and trailing whitespace. -/
theorem copy_untrimmed_display_trimmed (code : String) :
    Components.copiedText code = code ∧
    Components.displayedCode code = Components.jsTrim code ∧
    ∃ pre post : List Char,
      code.data = pre ++ (Components.displayedCode code).data ++ post ∧
      (∀ c ∈ pre, Components.isJsWhitespace c) ∧
      (∀ c ∈ post, Components.isJsWhitespace c) := by
  have key : code.data =
      code.data.takeWhile Components.isJsWhitespace ++
        ((code.data.dropWhile Components.isJsWhitespace).rdropWhile
          Components.isJsWhitespace ++
        (code.data.dropWhile Components.isJsWhitespace).rtakeWhile
          Components.isJsWhitespace) := by
    rw [list_rdrop_append_rtake, List.takeWhile_append_dropWhile]
  refine ⟨rfl, rfl,
    code.data.takeWhile Components.isJsWhitespace,
    (code.data.dropWhile Components.isJsWhitespace).rtakeWhile
      Components.isJsWhitespace,
    ?_, fun c hc => List.mem_takeWhile_imp hc,
    fun c hc => List.mem_rtakeWhile_imp hc⟩
  rw [List.append_assoc]
  exact key

end DebugPatterns
